import Mathlib

/-!
Shallow embedding of the analysis core of the IndeterminateBeam package
(`indeterminatebeam/indeterminatebeam.py`, `indeterminatebeam/loading.py`,
`indeterminatebeam/data_validation.py`, `indeterminatebeam/units.py`).

Modelling conventions, used throughout:

* Python numbers (ints and floats) are modelled as exact rationals `ℚ`.
  The source performs its linear algebra symbolically/exactly (sympy
  `linsolve`), so the rational model matches the code's own arithmetic.
* A load's angle enters the source only through the two direction factors
  `force_x = cos(radians(angle))` and `force_y = sin(radians(angle))`
  computed in `Load._add_load_functions`.  The embedding therefore carries
  those two factors (`fx`, `fy`) instead of the angle itself; the source's
  `abs(round(force_x, 8)) > 0` guard, which zeroes a numerically-zero trig
  factor, is modelled as the exact test `fx ≠ 0`.
* sympy `SingularityFunction(x, a, n)` terms are modelled by `SingTerm`
  (coefficient, shift, order).  A whole symbolic expression is a list of
  such terms (`SingExpr`); sympy's additive auto-simplification corresponds
  to list concatenation.  `integrate` maps to `integSing` using sympy's
  rules (divide by `n+1` for `n ≥ 0`, plain shift of the order otherwise),
  and numeric substitution maps to `SingExpr.eval` using sympy's evaluation
  (`0` left of the shift, `(x-a)^n` from the shift on, for `n ≥ 0`; a
  negative-order singularity evaluates to `0` away from its shift and is
  never evaluated at its shift by the code paths modelled here).
* Python exceptions are modelled with `Except String`; a function that
  mutates `self` in place and may raise returns the mutated state together
  with `Option String` (the raised error, state changes before the raise
  are kept, as in Python).
* sympy `oo` (an infinite, rigid stiffness) is the `Stiffness.inf`
  constructor; `q / oo = 0` in sympy is `stiffInv .inf = 0` here.
* Python `round(v, d)` (round-half-to-even on exact values) is `roundTo d`.
-/

/-- Python `round` to an integer: round half to even (banker's rounding),
on the exact rational value. -/
def pyRound (q : ℚ) : ℤ :=
  let f : ℤ := ⌊q⌋
  let r : ℚ := q - f
  if r < 1/2 then f
  else if 1/2 < r then f + 1
  else if 2 ∣ f then f else f + 1

/-- Python `round(q, d)`: round to `d` decimal places, half to even. -/
def roundTo (d : ℕ) (q : ℚ) : ℚ :=
  (pyRound (q * 10 ^ d) : ℚ) / 10 ^ d

/-- One sympy `coeff * SingularityFunction(x, shift, order)` term. -/
structure SingTerm where
  coeff : ℚ
  shift : ℚ
  order : ℤ
deriving DecidableEq, Repr

/-- A sympy expression that is a sum of singularity-function terms. -/
abbrev SingExpr := List SingTerm

/-- Numeric value of a singularity term at `v` (sympy evaluation rules:
zero left of the shift; `(v - shift)^order` from the shift on when the
order is non-negative; negative orders evaluate to zero away from the
shift, and the code never evaluates them at the shift). -/
def SingTerm.eval (t : SingTerm) (v : ℚ) : ℚ :=
  if 0 ≤ t.order ∧ t.shift ≤ v then t.coeff * (v - t.shift) ^ t.order.toNat else 0

/-- Numeric value of a singularity expression at `v`. -/
def SingExpr.eval (e : SingExpr) (v : ℚ) : ℚ :=
  (e.map (SingTerm.eval · v)).sum

/-- sympy `integrate(e, x)` on a sum of singularity terms:
`SF(x,a,n) ↦ SF(x,a,n+1)/(n+1)` for `n ≥ 0`, `SF(x,a,n) ↦ SF(x,a,n+1)`
for `n < 0`. -/
def integSing (e : SingExpr) : SingExpr :=
  e.map fun t =>
    if 0 ≤ t.order then ⟨t.coeff / (t.order + 1 : ℤ), t.shift, t.order + 1⟩
    else ⟨t.coeff, t.shift, t.order + 1⟩

/-- Multiplication of a singularity expression by a scalar. -/
def smulSing (c : ℚ) (e : SingExpr) : SingExpr :=
  e.map fun t => ⟨c * t.coeff, t.shift, t.order⟩

/-! ## data_validation.py -/

/-- `assert_positive_number` (data_validation.py): raises iff `n < 0`.
(The Python type check cannot fail in the rational model.) -/
def assert_positive_number (n : ℚ) (name : String) : Except String Unit :=
  if n < 0 then .error (name ++ " should be >= 0") else .ok ()

/-- `assert_strictly_positive_number` (data_validation.py).  The source
tests `if n < 0` — identical to `assert_positive_number` — although its
docstring and its error message ("should be > 0") announce a strict
check.  The embedding reproduces the source test verbatim. -/
def assert_strictly_positive_number (n : ℚ) (name : String) : Except String Unit :=
  if n < 0 then .error (name ++ " should be > 0") else .ok ()

/-- `assert_list_contents`: every list element must belong to `content`. -/
def assert_list_contents (l : List ℚ) (content : List ℚ) (name : String) :
    Except String Unit :=
  if l.all (fun a => a ∈ content) then .ok ()
  else .error (name ++ " must contain only allowed items")

/-- `assert_contents`: the value must belong to `content`. -/
def assert_contents (var : String) (content : List String) (name : String) :
    Except String Unit :=
  if var ∈ content then .ok ()
  else .error (name ++ " must have a value that is specified in the allowed list")

/-! ## loading.py

The load vocabulary with closed singularity-function form: `PointLoad`,
`PointTorque`, `UDL`, `TrapezoidalLoad` (plus their fixed-angle V/H
subclasses, which only preset `fx`/`fy`).  `DistributedLoad` (an arbitrary
user sympy expression) is outside this embedding.  `fx`/`fy` stand for
`cos(radians(angle))` / `sin(radians(angle))`. -/

inductive Load where
  | pointLoad (force coord fx fy : ℚ)
  | pointTorque (force coord : ℚ)
  | udl (force spanStart spanEnd fx fy : ℚ)
  | trapezoidal (forceStart forceEnd spanStart spanEnd fx fy : ℚ)
deriving DecidableEq, Repr

namespace Load

/-- The non-directional load expression `expr` built by each constructor
(`loading.py`): an impulse for `PointLoad`, the negated second-order
impulse for `PointTorque`, a rectangle for `UDL`, and for
`TrapezoidalLoad` the triangular component (empty when
`force.start == force.end`) followed by the rectangular `UDL` component. -/
def expr : Load → SingExpr
  | .pointLoad force coord _ _ => [⟨force, coord, -1⟩]
  | .pointTorque force coord => [⟨-force, coord, -2⟩]
  | .udl force a b _ _ => [⟨force, a, 0⟩, ⟨-force, b, 0⟩]
  | .trapezoidal f0 f1 a b _ _ =>
      (if f0 ≠ f1 then
        [⟨(f1 - f0) / (b - a), a, 1⟩, ⟨-(f1 - f0), b, 0⟩, ⟨-((f1 - f0) / (b - a)), b, 1⟩]
      else []) ++ [⟨f0, a, 0⟩, ⟨-f0, b, 0⟩]

/-- The `force_x = cos(radians(angle))` factor of the load
(`0` for `PointTorque`, whose fixed angle is 90°). -/
def fxv : Load → ℚ
  | .pointLoad _ _ fx _ => fx
  | .pointTorque _ _ => 0
  | .udl _ _ _ fx _ => fx
  | .trapezoidal _ _ _ _ fx _ => fx

/-- The `force_y = sin(radians(angle))` factor of the load
(`1` for `PointTorque`). -/
def fyv : Load → ℚ
  | .pointLoad _ _ _ fy => fy
  | .pointTorque _ _ => 1
  | .udl _ _ _ _ fy => fy
  | .trapezoidal _ _ _ _ _ fy => fy

/-- `self._x0` of `Load._add_load_functions`: the axial load density
`force_x * expr`, zeroed when the direction factor vanishes. -/
def x0 (l : Load) : SingExpr :=
  if l.fxv = 0 then [] else smulSing l.fxv l.expr

/-- `self._y0` of `Load._add_load_functions`: the tangential load density
`force_y * expr`, zeroed when the direction factor vanishes. -/
def y0 (l : Load) : SingExpr :=
  if l.fyv = 0 then [] else smulSing l.fyv l.expr

/-- `self._x1 = integrate(self._x0, x)`: normal-force contribution. -/
def x1 (l : Load) : SingExpr := integSing l.x0

/-- `self._y1 = integrate(self._y0, x)`: shear-force contribution. -/
def y1 (l : Load) : SingExpr := integSing l.y0

/-- `self._m0`: the load's moment about the origin, as assigned by each
constructor in loading.py. -/
def m0 : Load → ℚ
  | .pointLoad force coord _ fy => force * coord * fy
  | .pointTorque force _ => force
  | .udl force a b _ fy => force * (b - a) * (a + (b - a) / 2) * fy
  | .trapezoidal f0 f1 a b _ fy =>
      (f0 * (b - a) * (a + (b - a) / 2)
        + ((f1 - f0) * (b - a) / 2) * (a + (b - a) * 2 / 3)) * fy

/-- Discriminator: `isinstance(load, PointLoad)`. -/
def isPointLoad : Load → Bool
  | .pointLoad _ _ _ _ => true
  | _ => false

/-- Discriminator: `isinstance(load, PointTorque)`. -/
def isPointTorque : Load → Bool
  | .pointTorque _ _ => true
  | _ => false

/-- Discriminator: `isinstance(load, (UDL, TrapezoidalLoad))` — the
distributed load kinds of this embedding. -/
def isDistKind : Load → Bool
  | .udl _ _ _ _ _ => true
  | .trapezoidal _ _ _ _ _ _ => true
  | _ => false

end Load

/-- `UDL.__init__` validation and construction (`loading.py`): validate the
span (start `≥ 0`, `round(end - start, 5)` through the strictly-positive
assertion), then build the load. -/
def UDL_init (force : ℚ) (span : ℚ × ℚ) (fx fy : ℚ) : Except String Load := do
  assert_positive_number span.1 "span start"
  assert_strictly_positive_number (roundTo 5 (span.2 - span.1)) "span start minus span end"
  .ok (Load.udl force span.1 span.2 fx fy)

/-- `TrapezoidalLoad.__init__` validation and construction (`loading.py`).
After the same span validation as `UDL`, the triangular component computes
`slope = (force.end - force.start) / (span.end - span.start)`, which in
Python raises `ZeroDivisionError` on a degenerate span when the two force
values differ. -/
def TrapezoidalLoad_init (force : ℚ × ℚ) (span : ℚ × ℚ) (fx fy : ℚ) :
    Except String Load := do
  assert_positive_number span.1 "span start"
  assert_strictly_positive_number (roundTo 5 (span.2 - span.1)) "span start minus span end"
  if force.1 ≠ force.2 ∧ span.2 - span.1 = 0 then
    .error "ZeroDivisionError"
  else
    .ok (Load.trapezoidal force.1 force.2 span.1 span.2 fx fy)

/-! ## Support (indeterminatebeam.py) -/

/-- A stiffness entry of `Support._stiffness`: sympy `oo` (rigid) or a
finite number (`fin 0` meaning free). -/
inductive Stiffness where
  | inf
  | fin (k : ℚ)
deriving DecidableEq, Repr

/-- Reciprocal-stiffness factor used by the compatibility equations:
sympy evaluates `var / (oo * c)` to `0`, and `var / (k * c)` stays. -/
def stiffInv (s : Stiffness) (c : ℚ) : ℚ :=
  match s with
  | .inf => 0
  | .fin k => 1 / (k * c)

/-- `Support`: position plus the stiffness triple `(kx, ky, km)`. -/
structure Support where
  position : ℚ
  kx : Stiffness
  ky : Stiffness
  km : Stiffness
deriving DecidableEq, Repr

/-- `Support._DOF`: `1` where the stiffness is nonzero. -/
def Support.DOF (s : Support) : List ℕ :=
  [s.kx, s.ky, s.km].map fun st => if st ≠ .fin 0 then 1 else 0

/-- `Support._fixed`: `1` where the stiffness is infinite. -/
def Support.fixedOf (s : Support) : List ℕ :=
  [s.kx, s.ky, s.km].map fun st => if st = .inf then 1 else 0

/-- Python truthiness of the optional `kx` / `ky` argument:
`None` and `0` are falsy. -/
def truthy : Option ℚ → Bool
  | none => false
  | some v => v ≠ 0

/-- `Support.__init__`: validate the coordinate, validate `kx`/`ky` only
when truthy, validate the `fixed` triple contents, build the stiffness
triple (`oo` where fixed, `0` where free), then override an axis with a
truthy `kx`/`ky`. -/
def Support_init (coord : ℚ) (fixed : ℚ × ℚ × ℚ) (kx ky : Option ℚ) :
    Except String Support := do
  assert_positive_number coord "coordinate"
  if truthy kx then assert_positive_number (kx.getD 0) "kx" else pure ()
  if truthy ky then assert_positive_number (ky.getD 0) "ky" else pure ()
  assert_list_contents [fixed.1, fixed.2.1, fixed.2.2] [0, 1] "fixed"
  let s0 : Stiffness := if fixed.1 ≠ 0 then .inf else .fin 0
  let s1 : Stiffness := if fixed.2.1 ≠ 0 then .inf else .fin 0
  let s2 : Stiffness := if fixed.2.2 ≠ 0 then .inf else .fin 0
  let s0 : Stiffness := if truthy kx then .fin (kx.getD 0) else s0
  let s1 : Stiffness := if truthy ky then .fin (ky.getD 0) else s1
  .ok ⟨coord, s0, s1, s2⟩

/-! ## units.py -/

/-- `METRIC_UNITS[key][unit]`, the multiplier to SI. -/
def METRIC_UNITS (key unit : String) : Option ℚ :=
  match key, unit with
  | "length", "mm" => some (1/1000)
  | "length", "cm" => some (1/100)
  | "length", "m" => some 1
  | "force", "N" => some 1
  | "force", "kN" => some 1000
  | "moment", "N.mm" => some (1/1000)
  | "moment", "kN.mm" => some 1
  | "moment", "N.m" => some 1
  | "moment", "kN.m" => some 1000
  | "distributed", "N/mm" => some 1000
  | "distributed", "kN/mm" => some 1000000
  | "distributed", "N/m" => some 1
  | "distributed", "kN/m" => some 1000
  | "stiffness", "N/mm" => some 1000
  | "stiffness", "kN/mm" => some 1000000
  | "stiffness", "N/m" => some 1
  | "stiffness", "kN/m" => some 1000
  | "A", "mm2" => some (1/1000000)
  | "A", "cm2" => some (1/10000)
  | "A", "m2" => some 1
  | "E", "Pa" => some 1
  | "E", "kPa" => some 1000
  | "E", "MPa" => some 1000000
  | "I", "mm4" => some (1/1000000000000)
  | "I", "cm4" => some (1/100000000)
  | "I", "m4" => some 1
  | "deflection", "mm" => some (1/1000)
  | "deflection", "cm" => some (1/100)
  | "deflection", "m" => some 1
  | _, _ => none

/-- `IMPERIAL_UNITS[key][unit]` with `inch = 0.0254`, `ft = 0.3048`,
`lbf = 4.4482216`, `kip = 4448.2216`. -/
def IMPERIAL_UNITS (key unit : String) : Option ℚ :=
  let inch : ℚ := 254/10000
  let ft : ℚ := 3048/10000
  let lbf : ℚ := 44482216/10000000
  let kip : ℚ := 44482216/10000
  match key, unit with
  | "length", "in" => some inch
  | "length", "ft" => some ft
  | "force", "lbf" => some lbf
  | "force", "kip" => some kip
  | "moment", "lbf.ft" => some (lbf * ft)
  | "moment", "kip.ft" => some (kip * ft)
  | "moment", "lbf.in" => some (lbf * inch)
  | "moment", "kip.in" => some (kip * inch)
  | "distributed", "kip/ft" => some (kip / ft)
  | "distributed", "kip/in" => some (kip / inch)
  | "distributed", "lbf/ft" => some (lbf / ft)
  | "distributed", "lbf/in" => some (lbf / inch)
  | "stiffness", "kip/ft" => some (kip / ft)
  | "stiffness", "kip/in" => some (kip / inch)
  | "stiffness", "lbf/ft" => some (lbf / ft)
  | "stiffness", "lbf/in" => some (lbf / inch)
  | "A", "in2" => some (inch ^ 2)
  | "A", "ft2" => some (ft ^ 2)
  | "E", "kip/in2" => some (kip / inch ^ 2)
  | "E", "kip/ft2" => some (kip / ft ^ 2)
  | "E", "lbf/in2" => some (lbf / inch ^ 2)
  | "E", "lbf/ft2" => some (lbf / ft ^ 2)
  | "I", "in4" => some (inch ^ 4)
  | "I", "ft4" => some (ft ^ 4)
  | "deflection", "in" => some inch
  | "deflection", "ft" => some ft
  | _, _ => none

/-- `UNIT_KEYS`: the quantity keys of the unit tables. -/
def UNIT_KEYS : List String :=
  ["length", "force", "moment", "distributed", "stiffness", "A", "E", "I", "deflection"]

/-- `UNIT_VALUES[key]`: metric then imperial unit symbols for a key. -/
def UNIT_VALUES (key : String) : List String :=
  match key with
  | "length" => ["mm", "cm", "m", "in", "ft"]
  | "force" => ["N", "kN", "lbf", "kip"]
  | "moment" => ["N.mm", "kN.mm", "N.m", "kN.m", "lbf.ft", "kip.ft", "lbf.in", "kip.in"]
  | "distributed" => ["N/mm", "kN/mm", "N/m", "kN/m", "kip/ft", "kip/in", "lbf/ft", "lbf/in"]
  | "stiffness" => ["N/mm", "kN/mm", "N/m", "kN/m", "kip/ft", "kip/in", "lbf/ft", "lbf/in"]
  | "A" => ["mm2", "cm2", "m2", "in2", "ft2"]
  | "E" => ["Pa", "kPa", "MPa", "kip/in2", "kip/ft2", "lbf/in2", "lbf/ft2"]
  | "I" => ["mm4", "cm4", "m4", "in4", "ft4"]
  | "deflection" => ["mm", "cm", "m", "in", "ft"]
  | _ => []

/-- The conversion factor lookup performed at the top of `Beam.analyse`:
metric table first, imperial table otherwise. -/
def unitFactor (key unit : String) : ℚ :=
  match METRIC_UNITS key unit with
  | some v => v
  | none => (IMPERIAL_UNITS key unit).getD 0

/-- The `self._units` dictionary: a unit symbol per quantity key. -/
structure UnitsSel where
  length : String
  force : String
  moment : String
  distributed : String
  stiffness : String
  A : String
  E : String
  I : String
  deflection : String
deriving DecidableEq, Repr

/-- The default SI `self._units` assigned by `Beam.__init__` and by
`update_units(reset=True)`. -/
def defaultUnitsSel : UnitsSel :=
  ⟨"m", "N", "N.m", "N/m", "N/m", "m2", "Pa", "m4", "m"⟩

/-- Numeric conversion factors (the `units` dict built in `analyse`). -/
structure UnitFactors where
  length : ℚ
  force : ℚ
  moment : ℚ
  distributed : ℚ
  stiffness : ℚ
  A : ℚ
  E : ℚ
  I : ℚ
  deflection : ℚ
deriving DecidableEq, Repr

/-- Conversion factors of a unit selection. -/
def factorsOf (u : UnitsSel) : UnitFactors :=
  ⟨unitFactor "length" u.length, unitFactor "force" u.force,
   unitFactor "moment" u.moment, unitFactor "distributed" u.distributed,
   unitFactor "stiffness" u.stiffness, unitFactor "A" u.A,
   unitFactor "E" u.E, unitFactor "I" u.I,
   unitFactor "deflection" u.deflection⟩

/-! ## Beam state and mutators (indeterminatebeam.py) -/

/-- The `Beam` object state.  The four cached symbolic result functions
are singularity-term sums (`0`, i.e. `[]`, after a reset); `reactions`
is the reaction table keyed by support position with an `(x, y, m)`
triple; `plottingVectors` is the `x` sample grid of
`_set_plotting_vectors`, `none` while `self._plotting_vectors == {}`
(the `y` vectors are the cached functions sampled on the grid). -/
structure Beam where
  x0 : ℚ
  x1 : ℚ
  E : ℚ
  I : ℚ
  A : ℚ
  loads : List Load
  supports : List Support
  query : List ℚ
  DATA_POINTS : ℕ
  decimalPrecision : ℕ
  units : UnitsSel
  normalForces : SingExpr
  shearForces : SingExpr
  bendingMoments : SingExpr
  deflectionEquation : SingExpr
  reactions : List (ℚ × ℚ × ℚ × ℚ)
  plottingVectors : Option (List ℚ)
deriving DecidableEq, Repr

/-- `Beam._analysis_reset`: clear every property determined by analysis. -/
def analysisReset (b : Beam) : Beam :=
  { b with
    normalForces := []
    shearForces := []
    bendingMoments := []
    deflectionEquation := []
    reactions := []
    plottingVectors := none }

/-- The state built by `Beam.__init__` after validation. -/
def Beam.new (span E I A : ℚ) : Beam :=
  { x0 := 0, x1 := span, E := E, I := I, A := A
    loads := [], supports := [], query := []
    DATA_POINTS := 200, decimalPrecision := 3
    units := defaultUnitsSel
    normalForces := [], shearForces := [], bendingMoments := []
    deflectionEquation := [], reactions := [], plottingVectors := none }

/-- `Beam.__init__`: validate span and section properties, then build the
initial state. -/
def Beam_init (span E I A : ℚ) : Except String Beam := do
  assert_strictly_positive_number span "span"
  assert_strictly_positive_number E "Youngs Modulus (E)"
  assert_strictly_positive_number I "Second Moment of Area (I)"
  assert_strictly_positive_number A "Area (A)"
  .ok (Beam.new span E I A)

/-- The span check of `add_loads` for one load: a distributed kind must
have its span inside the beam, a point kind its coordinate. -/
def loadSpanCheck (b : Beam) (l : Load) : Option String :=
  match l with
  | .udl _ a bb _ _ =>
      if b.x0 > a ∨ bb > b.x1 then some "Coordinate is not a point on beam" else none
  | .trapezoidal _ _ a bb _ _ =>
      if b.x0 > a ∨ bb > b.x1 then some "Coordinate is not a point on beam" else none
  | .pointLoad _ c _ _ =>
      if b.x0 > c ∨ c > b.x1 then some "Coordinate is not a point on beam" else none
  | .pointTorque _ c =>
      if b.x0 > c ∨ c > b.x1 then some "Coordinate is not a point on beam" else none

/-- The `force` value `add_loads` tests against `0` before appending:
the plain force for point kinds and `UDL`, and `max(force, key=abs)`
(first maximum on a tie) for `TrapezoidalLoad`. -/
def loadForceValue : Load → ℚ
  | .pointLoad f _ _ _ => f
  | .pointTorque f _ => f
  | .udl f _ _ _ _ => f
  | .trapezoidal f0 f1 _ _ _ _ => if |f1| > |f0| then f1 else f0

/-- The per-load loop of `add_loads`: stop raising at the first load
failing the span check (earlier appends are kept, as the Python object
was mutated in place); a zero-force load is silently skipped. -/
def add_loads_go (b : Beam) : List Load → Beam × Option String
  | [] => (b, none)
  | l :: rest =>
      match loadSpanCheck b l with
      | some e => (b, some e)
      | none =>
          let b' := if loadForceValue l ≠ 0 then { b with loads := b.loads ++ [l] } else b
          add_loads_go b' rest

/-- `Beam.add_loads`: reset the analysis, then run the insertion loop. -/
def add_loads (b : Beam) (loads : List Load) : Beam × Option String :=
  add_loads_go (analysisReset b) loads

/-- `Beam.remove_loads`: reset the analysis; with `remove_all` clear the
list, otherwise remove the first occurrence of each given load. -/
def remove_loads (b : Beam) (loads : List Load) (removeAll : Bool) : Beam :=
  let b := analysisReset b
  if removeAll then { b with loads := [] }
  else { b with loads := loads.foldl (fun acc l => acc.erase l) b.loads }

/-- The per-support loop of `add_supports`: raise on a support outside
the beam, append when the support list is empty or the position is new,
raise on a position collision (earlier appends are kept). -/
def add_supports_go (b : Beam) : List Support → Beam × Option String
  | [] => (b, none)
  | s :: rest =>
      if b.x0 > s.position ∨ s.position > b.x1 then
        (b, some "Not a point on beam")
      else if b.supports = [] then
        add_supports_go { b with supports := b.supports ++ [s] } rest
      else if s.position ∉ b.supports.map Support.position then
        add_supports_go { b with supports := b.supports ++ [s] } rest
      else
        (b, some "This coordinate already has a support associated with it")

/-- `Beam.add_supports`: reset the analysis, then run the insertion loop. -/
def add_supports (b : Beam) (supports : List Support) : Beam × Option String :=
  add_supports_go (analysisReset b) supports

/-- The removal loop of `remove_supports`, which iterates over
`self._supports` by index while removing from it, so the element that
slides into a removed element's slot is skipped (as in Python). -/
def remove_supports_loop (targets : List Support) (cur : List Support) (i : ℕ) :
    List Support :=
  if h : i < cur.length then
    let s := cur.get ⟨i, h⟩
    if s ∈ targets then remove_supports_loop targets (cur.erase s) (i + 1)
    else remove_supports_loop targets cur (i + 1)
  else cur
termination_by cur.length - i
decreasing_by
  · have hm : cur.get ⟨i, h⟩ ∈ cur := List.get_mem cur i h
    have := List.length_erase_of_mem hm
    simp only [this]
    omega
  · omega

/-- `Beam.remove_supports`: reset the analysis; with `remove_all` clear
the list, otherwise run the index-based removal loop. -/
def remove_supports (b : Beam) (supports : List Support) (removeAll : Bool) : Beam :=
  let b := analysisReset b
  if removeAll then { b with supports := [] }
  else { b with supports := remove_supports_loop supports b.supports 0 }

/-- Write one key of the `self._units` dictionary. -/
def setUnitKey (u : UnitsSel) (key unit : String) : UnitsSel :=
  match key with
  | "length" => { u with length := unit }
  | "force" => { u with force := unit }
  | "moment" => { u with moment := unit }
  | "distributed" => { u with distributed := unit }
  | "stiffness" => { u with stiffness := unit }
  | "A" => { u with A := unit }
  | "E" => { u with E := unit }
  | "I" => { u with I := unit }
  | "deflection" => { u with deflection := unit }
  | _ => u

/-- `Beam.update_units`: with `reset` restore the SI defaults and clear
the analysis; otherwise validate the key and the unit symbol (raising
without touching the state on failure), then assign and clear the
analysis. -/
def update_units (b : Beam) (key unit : String) (reset : Bool) : Beam × Option String :=
  if reset then
    (analysisReset { b with units := defaultUnitsSel }, none)
  else
    match assert_contents key UNIT_KEYS "key" with
    | .error e => (b, some e)
    | .ok _ =>
        match assert_contents unit (UNIT_VALUES key) "unit" with
        | .error e => (b, some e)
        | .ok _ => (analysisReset { b with units := setUnitKey b.units key unit }, none)

/-- The loop of `add_query_points`: append each coordinate on the beam;
at the first coordinate off the beam, stop and hand back a `ValueError`
object as the function's return value (`return ValueError(...)` in the
source — the error is returned, not raised). -/
def add_query_points_go (b : Beam) : List ℚ → Beam × Option String
  | [] => (b, none)
  | c :: rest =>
      if b.x0 ≤ c ∧ c ≤ b.x1 then
        add_query_points_go { b with query := b.query ++ [c] } rest
      else
        (b, some "Not a point on beam")

/-- `Beam.add_query_points`.  The second component is the function's
return value: `none` for Python `None`, `some msg` for the returned
(never raised) `ValueError` object. -/
def add_query_points (b : Beam) (coords : List ℚ) : Beam × Option String :=
  add_query_points_go b coords

/-- `Beam.remove_query_points`: with `remove_all` clear the query list,
otherwise remove the first occurrence of each given coordinate. -/
def remove_query_points (b : Beam) (coords : List ℚ) (removeAll : Bool) : Beam :=
  if removeAll then { b with query := [] }
  else { b with query := coords.foldl (fun acc c => acc.erase c) b.query }

/-! ## Beam.analyse — unknown enumeration and restraint check -/

/-- Stable insertion of a support into a position-sorted list. -/
def insertSupport (s : Support) : List Support → List Support
  | [] => [s]
  | t :: ts => if s.position ≤ t.position then s :: t :: ts else t :: insertSupport s ts

/-- `sorted(self._supports, key=lambda item: item._position)` (stable). -/
def sortSupports : List Support → List Support
  | [] => []
  | s :: ss => insertSupport s (sortSupports ss)

/-- The `unknowns["x"]` entries: sorted supports with nonzero x stiffness. -/
def unknownsX (b : Beam) : List Support :=
  (sortSupports b.supports).filter fun s => s.kx ≠ .fin 0

/-- The `unknowns["y"]` entries: sorted supports with nonzero y stiffness. -/
def unknownsY (b : Beam) : List Support :=
  (sortSupports b.supports).filter fun s => s.ky ≠ .fin 0

/-- The `unknowns["m"]` entries: sorted supports with nonzero rotational
stiffness. -/
def unknownsM (b : Beam) : List Support :=
  (sortSupports b.supports).filter fun s => s.km ≠ .fin 0

/-- The restraint check of `analyse`, performed right after unknown
enumeration and before any equation is formed: at least one x-reaction
unknown and at least two y/m-reaction unknowns are required. -/
def analyseCheckSupports (b : Beam) : Except String Unit :=
  if (unknownsX b).length < 1 then
    .error "You need at least one x restraint, even if there are no x forces"
  else if (unknownsY b).length + (unknownsM b).length < 2 then
    .error "You need at least two y or m restraints, even if there are no y or m forces"
  else .ok ()

/-! ## Beam.analyse — the linear system

The reaction unknowns are sympy symbols indexed by direction and support
position; an `Assignment` gives each of them (and the two integration
constants) a value.  Every equation built by `analyse` is linear in these
unknowns, so each is modelled as the rational value it takes under an
assignment; `analyse` succeeding means `linsolve` returned an assignment
making every equation zero. -/

structure Assignment where
  rx : ℚ → ℚ
  ry : ℚ → ℚ
  rm : ℚ → ℚ
  c1 : ℚ
  c2 : ℚ

/-- sympy addition of a list of singularity expressions. -/
def sumExprs (es : List SingExpr) : SingExpr := es.flatMap id

/-- `self._loads` entries that are `PointLoad`s. -/
def ptLoads (b : Beam) : List Load := b.loads.filter fun l => l.isPointLoad

/-- `self._loads` entries that are `UDL`s or `TrapezoidalLoad`s. -/
def distLoads (b : Beam) : List Load := b.loads.filter fun l => l.isDistKind

/-- `self._loads` entries that are `PointTorque`s. -/
def torqueLoads (b : Beam) : List Load := b.loads.filter fun l => l.isPointTorque

/-- `F_Rx`: horizontal global equilibrium — the loads' integrated axial
densities at the beam end (unit-converted) plus the x-reaction unknowns. -/
def F_Rx (b : Beam) (u : UnitFactors) (σ : Assignment) : ℚ :=
  ((ptLoads b).map fun l => (l.x1).eval b.x1).sum * u.force
  + (((distLoads b).map fun l => (l.x1).eval b.x1).sum * u.distributed * u.length)
  + ((unknownsX b).map fun s => σ.rx s.position).sum

/-- `F_Ry`: vertical global equilibrium — the loads' integrated
tangential densities at the beam end (unit-converted) plus the y-reaction
unknowns. -/
def F_Ry (b : Beam) (u : UnitFactors) (σ : Assignment) : ℚ :=
  ((ptLoads b).map fun l => (l.y1).eval b.x1).sum * u.force
  + (((distLoads b).map fun l => (l.y1).eval b.x1).sum * u.distributed * u.length)
  + ((unknownsY b).map fun s => σ.ry s.position).sum

/-- `M_R`: moment equilibrium about the left end (anti-clockwise
positive) — the loads' `_m0` moments (unit-converted), the moment-reaction
unknowns, and the y-reaction unknowns times their positions. -/
def M_R (b : Beam) (u : UnitFactors) (σ : Assignment) : ℚ :=
  ((ptLoads b).map Load.m0).sum * u.force * u.length
  + ((distLoads b).map Load.m0).sum * u.distributed * u.length ^ 2
  + ((torqueLoads b).map Load.m0).sum * u.moment
  + ((unknownsM b).map fun s => σ.rm s.position).sum
  + ((unknownsY b).map fun s => σ.ry s.position * s.position).sum * u.length

/-- The unit singularity step `SingularityFunction(x, p, 0)` attached to
each reaction-force unknown. -/
def sfStep (p : ℚ) : SingExpr := [⟨1, p, 0⟩]

/-- Load part of the shear function `F_i_1` (unit factors applied as in
the source: `force` for point loads, `distributed * length` for the
distributed kinds). -/
def F_i_loadpart (b : Beam) (u : UnitFactors) : SingExpr :=
  smulSing u.force (sumExprs ((ptLoads b).map Load.y1))
  ++ smulSing (u.distributed * u.length) (sumExprs ((distLoads b).map Load.y1))

/-- The point-torque `_y1` sum integrated into the bending moment. -/
def torqueY1 (b : Beam) : SingExpr := sumExprs ((torqueLoads b).map Load.y1)

/-- Load part of the bending moment `M_i_1`:
`integrate(F_i_1)*length + integrate(sum of torque _y1)*moment`. -/
def M_i_loadpart (b : Beam) (u : UnitFactors) : SingExpr :=
  smulSing u.length (integSing (F_i_loadpart b u))
  ++ smulSing u.moment (integSing (torqueY1 b))

/-- Load part of the slope `dv_EI_1 = integrate(M_i_1)*length + C1`. -/
def dv_loadpart (b : Beam) (u : UnitFactors) : SingExpr :=
  smulSing u.length (integSing (M_i_loadpart b u))

/-- Load part of the deflection `v_EI_1 = integrate(dv_EI_1)*length + C2`. -/
def v_loadpart (b : Beam) (u : UnitFactors) : SingExpr :=
  smulSing u.length (integSing (dv_loadpart b u))

/-- Contribution of one y-reaction unknown to `M_i_1` (its step function
integrated once, times the length factor). -/
def yMexpr (u : UnitFactors) (p : ℚ) : SingExpr :=
  smulSing u.length (integSing (sfStep p))

/-- Contribution of one y-reaction unknown to the slope function. -/
def yDvExpr (u : UnitFactors) (p : ℚ) : SingExpr :=
  smulSing u.length (integSing (yMexpr u p))

/-- Contribution of one y-reaction unknown to the deflection function. -/
def yVexpr (u : UnitFactors) (p : ℚ) : SingExpr :=
  smulSing u.length (integSing (yDvExpr u p))

/-- Contribution of one moment-reaction unknown to `M_i_1`
(`- torque`, a negated step). -/
def mMexpr (p : ℚ) : SingExpr := [⟨-1, p, 0⟩]

/-- Contribution of one moment-reaction unknown to the slope function. -/
def mDvExpr (u : UnitFactors) (p : ℚ) : SingExpr :=
  smulSing u.length (integSing (mMexpr p))

/-- Contribution of one moment-reaction unknown to the deflection
function. -/
def mVexpr (u : UnitFactors) (p : ℚ) : SingExpr :=
  smulSing u.length (integSing (mDvExpr u p))

/-- The shear function `F_i_1` under an assignment, evaluated at `v`. -/
def F_i_at (b : Beam) (u : UnitFactors) (σ : Assignment) (v : ℚ) : ℚ :=
  (F_i_loadpart b u).eval v
  + ((unknownsY b).map fun s => σ.ry s.position * (sfStep s.position).eval v).sum

/-- The bending moment `M_i_1` under an assignment, evaluated at `v`. -/
def M_i_at (b : Beam) (u : UnitFactors) (σ : Assignment) (v : ℚ) : ℚ :=
  (M_i_loadpart b u).eval v
  + ((unknownsY b).map fun s => σ.ry s.position * (yMexpr u s.position).eval v).sum
  + ((unknownsM b).map fun s => σ.rm s.position * (mMexpr s.position).eval v).sum

/-- The slope `dv_EI` under an assignment, evaluated at `v`. -/
def dv_at (b : Beam) (u : UnitFactors) (σ : Assignment) (v : ℚ) : ℚ :=
  (dv_loadpart b u).eval v
  + ((unknownsY b).map fun s => σ.ry s.position * (yDvExpr u s.position).eval v).sum
  + ((unknownsM b).map fun s => σ.rm s.position * (mDvExpr u s.position).eval v).sum
  + σ.c1

/-- The deflection `v_EI` under an assignment, evaluated at `v`
(`integrate(C1, x) * length` contributes `c1 * v * length`). -/
def v_at (b : Beam) (u : UnitFactors) (σ : Assignment) (v : ℚ) : ℚ :=
  (v_loadpart b u).eval v
  + ((unknownsY b).map fun s => σ.ry s.position * (yVexpr u s.position).eval v).sum
  + ((unknownsM b).map fun s => σ.rm s.position * (mVexpr u s.position).eval v).sum
  + σ.c1 * v * u.length + σ.c2

/-- Load part of the normal force `N_i_1`. -/
def N_loadpart (b : Beam) (u : UnitFactors) : SingExpr :=
  smulSing u.force (sumExprs ((ptLoads b).map Load.x1))
  ++ smulSing (u.distributed * u.length) (sumExprs ((distLoads b).map Load.x1))

/-- The normal force `N_i_1` under an assignment, evaluated at `v`. -/
def N_i_at (b : Beam) (u : UnitFactors) (σ : Assignment) (v : ℚ) : ℚ :=
  (N_loadpart b u).eval v
  + ((unknownsX b).map fun s => σ.rx s.position * (sfStep s.position).eval v).sum

/-- `Nv_EA = integrate(N_i, x) * length` under an assignment, at `v`. -/
def Nv_at (b : Beam) (u : UnitFactors) (σ : Assignment) (v : ℚ) : ℚ :=
  (smulSing u.length (integSing (N_loadpart b u))).eval v
  + ((unknownsX b).map fun s =>
      σ.rx s.position * (smulSing u.length (integSing (sfStep s.position))).eval v).sum

/-- `equations_ym`: vertical and moment equilibrium, the zero-slope
condition at every rotationally restrained support, and the
spring-deflection condition at every y-restrained support. -/
def equations_ym (b : Beam) (u : UnitFactors) (σ : Assignment) : List ℚ :=
  [F_Ry b u σ, M_R b u σ]
  ++ ((unknownsM b).map fun s => dv_at b u σ s.position)
  ++ ((unknownsY b).map fun s =>
      v_at b u σ s.position / (b.E * u.E * b.I * u.I)
      + σ.ry s.position * stiffInv s.ky u.stiffness)

/-- `equations_xx`: horizontal equilibrium, plus — when axially
indeterminate — one elongation-compatibility equation pairing the first
x-restrained support with each further one. -/
def equations_xx (b : Beam) (u : UnitFactors) (σ : Assignment) : List ℚ :=
  [F_Rx b u σ]
  ++ (if 1 < (unknownsX b).length then
        match unknownsX b with
        | [] => []
        | start :: ends =>
            ends.map fun e =>
              (Nv_at b u σ e.position - Nv_at b u σ start.position)
                / (b.E * u.E * b.A * u.A)
              + σ.rx start.position * stiffInv start.kx u.stiffness
              - σ.rx e.position * stiffInv e.kx u.stiffness
      else [])

/-- `analyse` succeeding with solution `σ`: the restraint check passed
and `linsolve` returned `σ`, which therefore zeroes every equation of
both systems. -/
def AnalyseSucceeds (b : Beam) (σ : Assignment) : Prop :=
  analyseCheckSupports b = .ok ()
  ∧ (∀ q ∈ equations_ym b (factorsOf b.units) σ, q = 0)
  ∧ (∀ q ∈ equations_xx b (factorsOf b.units) σ, q = 0)

/-- One row of the reaction table written by `analyse`: each solved
reaction converted back to display units and rounded to 10 decimals,
zero where the support has no unknown in that direction. -/
def reactionTriple (u : UnitFactors) (σ : Assignment) (s : Support) : ℚ × ℚ × ℚ :=
  (if s.kx ≠ .fin 0 then roundTo 10 (σ.rx s.position / u.force) else 0,
   if s.ky ≠ .fin 0 then roundTo 10 (σ.ry s.position / u.force) else 0,
   if s.km ≠ .fin 0 then roundTo 10 (σ.rm s.position / u.moment) else 0)

/-- The `self._reactions` table written by `analyse` (keyed by support
position, in sorted order). -/
def reactionsOf (b : Beam) (u : UnitFactors) (σ : Assignment) :
    List (ℚ × ℚ × ℚ × ℚ) :=
  (sortSupports b.supports).map fun s => (s.position, reactionTriple u σ s)

/-! ## Beam._set_plotting_vectors and the query layer -/

/-- `np.linspace(x0, x1, n)`. -/
def linspace (a b : ℚ) (n : ℕ) : List ℚ :=
  (List.range n).map fun k => a + (b - a) * k / ((n : ℚ) - 1)

/-- The singularity positions a load contributes to the sample grid:
its `position` for point kinds, both span ends for distributed kinds. -/
def loadSingularPositions : Load → List ℚ
  | .pointLoad _ c _ _ => [c]
  | .pointTorque _ c => [c]
  | .udl _ a b _ _ => [a, b]
  | .trapezoidal _ _ a b _ _ => [a, b]

/-- Insertion of a rational into a sorted list. -/
def insertQ (a : ℚ) : List ℚ → List ℚ
  | [] => [a]
  | c :: cs => if a ≤ c then a :: c :: cs else c :: insertQ a cs

/-- Sorting of a rational list. -/
def sortQ : List ℚ → List ℚ
  | [] => []
  | a :: as => insertQ a (sortQ as)

/-- Removal of adjacent duplicates in a sorted list. -/
def dedupAdj : List ℚ → List ℚ
  | [] => []
  | [a] => [a]
  | a :: c :: cs => if a = c then dedupAdj (c :: cs) else a :: dedupAdj (c :: cs)

/-- The extra sample points of `_set_plotting_vectors`: a point
`0.0000001` to each side of every singularity position, kept when inside
the beam. -/
def adjacentPoints (b : Beam) (xs : List ℚ) : List ℚ :=
  xs.flatMap fun a =>
    (if a - 1/10000000 > 0 then [a - 1/10000000] else [])
    ++ (if a + 1/10000000 < b.x1 then [a + 1/10000000] else [])

/-- The `x_vec` sample grid of `_set_plotting_vectors`: the linspace over
the span, the singularity-adjacent points from the reaction keys and the
loads, sorted with duplicates removed (`np.unique`). -/
def xVecOf (b : Beam) : List ℚ :=
  dedupAdj (sortQ
    (linspace b.x0 b.x1 b.DATA_POINTS
      ++ adjacentPoints b
          ((b.reactions.map fun r => r.1)
            ++ b.loads.flatMap loadSingularPositions)))

/-- The cached symbolic function a query string selects. -/
def funcExprOf (b : Beam) : String → SingExpr
  | "nf" => b.normalForces
  | "sf" => b.shearForces
  | "bm" => b.bendingMoments
  | "d" => b.deflectionEquation
  | _ => []

/-- Minimum of a sampled vector (`np.min`; the grid is never empty). -/
def listMinD : List ℚ → ℚ
  | [] => 0
  | a :: as => as.foldl min a

/-- Maximum of a sampled vector (`np.max`; the grid is never empty). -/
def listMaxD : List ℚ → ℚ
  | [] => 0
  | a :: as => as.foldl max a

/-- A query answer: a scalar for extremum queries or a single coordinate,
a list for several coordinates. -/
inductive QueryResult where
  | scalar (v : ℚ)
  | values (vs : List ℚ)
deriving DecidableEq, Repr

/-- `Beam._get_query_value`.  Before analysis `self._plotting_vectors`
is the empty dict, so the `self._plotting_vectors[func]` access raises
`KeyError`.  With no extremum flag set, each coordinate is probed a
whisker to each side and the side of larger magnitude (the first on a
tie, as Python `max(..., key=abs)`) is returned, rounded to 10 decimals;
with a flag set, the answer is the extremum of the sampled vector
(`max(abs(min), max)` for `return_absmax`). -/
def get_query_value (b : Beam) (xcoords : List ℚ) (func : String)
    (rmax rmin rabsmax : Bool) : Except String QueryResult :=
  match b.plottingVectors with
  | none => .error "KeyError"
  | some grid =>
      let lam := fun v => (funcExprOf b func).eval v
      if !(rabsmax || rmax || rmin) then
        let xs := xcoords.map fun p =>
          let a := roundTo 10 (lam (p - 1/10000000))
          let bb := roundTo 10 (lam (p + 1/10000000))
          if |bb| > |a| then bb else a
        if xs.length = 1 then .ok (.scalar (xs.headD 0)) else .ok (.values xs)
      else
        let yv := grid.map lam
        let mn := listMinD yv
        let mx := listMaxD yv
        if rmax then .ok (.scalar (roundTo 10 mx))
        else if rmin then .ok (.scalar (roundTo 10 mn))
        else .ok (.scalar (roundTo 10 (max |mn| mx)))

/-- `Beam.get_normal_force`. -/
def get_normal_force (b : Beam) (xcoords : List ℚ) (rmax rmin rabsmax : Bool) :
    Except String QueryResult :=
  get_query_value b xcoords "nf" rmax rmin rabsmax

/-- `Beam.get_shear_force`. -/
def get_shear_force (b : Beam) (xcoords : List ℚ) (rmax rmin rabsmax : Bool) :
    Except String QueryResult :=
  get_query_value b xcoords "sf" rmax rmin rabsmax

/-- `Beam.get_bending_moment`. -/
def get_bending_moment (b : Beam) (xcoords : List ℚ) (rmax rmin rabsmax : Bool) :
    Except String QueryResult :=
  get_query_value b xcoords "bm" rmax rmin rabsmax

/-- `Beam.get_deflection`. -/
def get_deflection (b : Beam) (xcoords : List ℚ) (rmax rmin rabsmax : Bool) :
    Except String QueryResult :=
  get_query_value b xcoords "d" rmax rmin rabsmax

/-- A `get_reaction` answer: one direction or the full triple. -/
inductive ReactionResult where
  | single (v : ℚ)
  | triple (t : ℚ × ℚ × ℚ)
deriving DecidableEq, Repr

/-- Lookup of a support position in the reaction table. -/
def lookupReaction (b : Beam) (p : ℚ) : Option (ℚ × ℚ × ℚ) :=
  (b.reactions.find? fun r => r.1 = p).map fun r => r.2

/-- `Beam.get_reaction`.  On a beam that has not been analysed the source
only prints a console warning ("You must analyse the structure before
calling this function") and falls through; the coordinate is then absent
from the empty table and the function returns `None` — it raises only for
an invalid `direction` string. -/
def get_reaction (b : Beam) (xcoord : ℚ) (direction : Option String) :
    Except String (Option ReactionResult) :=
  match lookupReaction b xcoord with
  | none => .ok none
  | some (rx, ry, rm) =>
      match direction with
      | some d =>
          match assert_contents d ["x", "y", "m"] "direction" with
          | .error e => .error e
          | .ok _ =>
              .ok (some (.single (if d = "x" then rx else if d = "y" then ry else rm)))
      | none => .ok (some (.triple (rx, ry, rm)))

/-! ## The state written by a successful analyse -/

/-- Cached shear expression `(F_i_1 + F_i_2) / units[force]` after
back-substitution (the y-unknown steps with their solved coefficients). -/
def shearExprOf (b : Beam) (u : UnitFactors) (σ : Assignment) : SingExpr :=
  smulSing (1 / u.force)
    (F_i_loadpart b u
      ++ sumExprs ((unknownsY b).map fun s => smulSing (σ.ry s.position) (sfStep s.position)))

/-- Cached normal-force expression after back-substitution. -/
def nfExprOf (b : Beam) (u : UnitFactors) (σ : Assignment) : SingExpr :=
  smulSing (1 / u.force)
    (N_loadpart b u
      ++ sumExprs ((unknownsX b).map fun s => smulSing (σ.rx s.position) (sfStep s.position)))

/-- Cached bending-moment expression after back-substitution. -/
def bmExprOf (b : Beam) (u : UnitFactors) (σ : Assignment) : SingExpr :=
  smulSing (1 / u.moment)
    (M_i_loadpart b u
      ++ sumExprs ((unknownsY b).map fun s => smulSing (σ.ry s.position) (yMexpr u s.position))
      ++ sumExprs ((unknownsM b).map fun s => smulSing (σ.rm s.position) (mMexpr s.position)))

/-- Cached deflection expression after back-substitution
(`C1*x*length` and `C2` appear as order-1 and order-0 terms at shift 0,
matching their polynomial values on the beam). -/
def deflExprOf (b : Beam) (u : UnitFactors) (σ : Assignment) : SingExpr :=
  smulSing (1 / (b.E * u.E * b.I * u.I) / u.deflection)
    (v_loadpart b u
      ++ sumExprs ((unknownsY b).map fun s => smulSing (σ.ry s.position) (yVexpr u s.position))
      ++ sumExprs ((unknownsM b).map fun s => smulSing (σ.rm s.position) (mVexpr u s.position))
      ++ [⟨σ.c1 * u.length, 0, 1⟩, ⟨σ.c2, 0, 0⟩])

/-- The beam state after a successful `analyse` with solution `σ`:
supports sorted in place, the four cached functions and the reaction
table written, and the plotting vectors set. -/
def applyAnalysis (b : Beam) (σ : Assignment) : Beam :=
  let u := factorsOf b.units
  let b' := { b with
    supports := sortSupports b.supports
    reactions := reactionsOf b u σ
    normalForces := nfExprOf b u σ
    shearForces := shearExprOf b u σ
    bendingMoments := bmExprOf b u σ
    deflectionEquation := deflExprOf b u σ }
  { b' with plottingVectors := some (xVecOf b') }

/-! ## Spec-side load aggregates (for the equilibrium statement)

These definitions follow the specification's words — the y (vertical)
and x (horizontal) components of an applied load and its moment about
the origin, as integrals of its load density — and are proved to agree
with what the engine sums. -/

/-- Total tangential (y) force of a load: the integral of its tangential
density (zero for a pure torque). -/
def specLoadFy : Load → ℚ
  | .pointLoad f _ _ fy => f * fy
  | .pointTorque _ _ => 0
  | .udl f a b _ fy => fy * f * (b - a)
  | .trapezoidal f0 f1 a b _ fy => fy * (f0 + f1) * (b - a) / 2

/-- Total axial (x) force of a load. -/
def specLoadFx : Load → ℚ
  | .pointLoad f _ fx _ => f * fx
  | .pointTorque _ _ => 0
  | .udl f a b fx _ => fx * f * (b - a)
  | .trapezoidal f0 f1 a b fx _ => fx * (f0 + f1) * (b - a) / 2

/-- Moment of a load about the origin: `∫ w_y(t) · t dt` for force
loads, the torque value for a pure torque (anti-clockwise positive). -/
def specLoadM0 : Load → ℚ
  | .pointLoad f c _ fy => f * fy * c
  | .pointTorque f _ => f
  | .udl f a b _ fy => fy * f * (b ^ 2 - a ^ 2) / 2
  | .trapezoidal f0 f1 a b _ fy =>
      fy * (f0 * (b ^ 2 - a ^ 2) / 2
        + (f1 - f0) / (b - a) * ((b ^ 3 - a ^ 3) / 3 - a * (b ^ 2 - a ^ 2) / 2))

/-- A load's y component in SI units, weighted as the engine weights its
kind (`force` factor for point loads, `distributed * length` for
distributed kinds, none for a pure torque). -/
def specLoadFySI (u : UnitFactors) (l : Load) : ℚ :=
  match l with
  | .pointLoad _ _ _ _ => specLoadFy l * u.force
  | .pointTorque _ _ => 0
  | .udl _ _ _ _ _ => specLoadFy l * (u.distributed * u.length)
  | .trapezoidal _ _ _ _ _ _ => specLoadFy l * (u.distributed * u.length)

/-- A load's x component in SI units. -/
def specLoadFxSI (u : UnitFactors) (l : Load) : ℚ :=
  match l with
  | .pointLoad _ _ _ _ => specLoadFx l * u.force
  | .pointTorque _ _ => 0
  | .udl _ _ _ _ _ => specLoadFx l * (u.distributed * u.length)
  | .trapezoidal _ _ _ _ _ _ => specLoadFx l * (u.distributed * u.length)

/-- A load's moment about the origin in SI units. -/
def specLoadM0SI (u : UnitFactors) (l : Load) : ℚ :=
  match l with
  | .pointLoad _ _ _ _ => specLoadM0 l * (u.force * u.length)
  | .pointTorque _ _ => specLoadM0 l * u.moment
  | .udl _ _ _ _ _ => specLoadM0 l * (u.distributed * u.length ^ 2)
  | .trapezoidal _ _ _ _ _ _ => specLoadM0 l * (u.distributed * u.length ^ 2)

/-- Regularity of a load as its constructor enforces it: a distributed
span runs left to right, and a trapezoid with unequal end forces has a
nondegenerate span (otherwise its constructor divides by zero). -/
def Load.regular : Load → Prop
  | .udl _ a b _ _ => a ≤ b
  | .trapezoidal f0 f1 a b _ _ => a ≤ b ∧ (f0 ≠ f1 → a ≠ b)
  | _ => True

/-- All analysis-cache fields of a beam hold their reset values. -/
def clearedAnalysis (b : Beam) : Prop :=
  b.normalForces = [] ∧ b.shearForces = [] ∧ b.bendingMoments = []
  ∧ b.deflectionEquation = [] ∧ b.reactions = [] ∧ b.plottingVectors = none

/-! ## The documentation example (test_indeterminatebeam.py example 1)

`Beam(6)` with a fixed support at 0, a y-only support at 6 and
`PointLoad(-15000, 3, 90)` (a downward 15 kN point load, `fx = cos 90° ≐ 0`,
`fy = sin 90° = 1`). -/

/-- `Support()` — fixed in x, y and rotation at 0. -/
def supportA : Support := ⟨0, .inf, .inf, .inf⟩

/-- `Support(6, (0,1,0))` — y-only (roller) at 6. -/
def supportC : Support := ⟨6, .fin 0, .inf, .fin 0⟩

/-- `PointLoad(-15000, 3, 90)`. -/
def loadC2 : Load := .pointLoad (-15000) 3 0 1

/-- The example beam state after `add_supports(a, c)` and
`add_loads(PointLoad(-15000, 3, 90))` on `Beam(6)`. -/
def beamC2 : Beam :=
  { Beam.new 6 (200 * 10 ^ 9) (905 / 10 ^ 8) (23 / 100) with
    loads := [loadC2]
    supports := [supportA, supportC] }

/-- The solution `linsolve` finds for the example beam. -/
def assignC2 : Assignment :=
  { rx := fun _ => 0
    ry := fun p => if p = 0 then 10312.5 else 4687.5
    rm := fun _ => 16875
    c1 := 0
    c2 := 0 }

/-! ## A simply supported check beam (for concrete instantiations) -/

/-- A span-2 beam: pin `(1,1,0)` at 0, roller `(0,1,0)` at 2, and a
downward 2 N point load at midspan. -/
def beamW : Beam :=
  { Beam.new 2 (200 * 10 ^ 9) (905 / 10 ^ 8) (23 / 100) with
    loads := [.pointLoad (-2) 1 0 1]
    supports := [⟨0, .inf, .inf, .fin 0⟩, ⟨2, .fin 0, .inf, .fin 0⟩] }

/-- The solution of the simply supported check beam. -/
def assignW : Assignment :=
  { rx := fun _ => 0
    ry := fun _ => 1
    rm := fun _ => 0
    c1 := -1/2
    c2 := 0 }

/-! ## Evaluation lemmas -/

theorem eval_nil (v : ℚ) : SingExpr.eval [] v = 0 := rfl

theorem eval_cons (t : SingTerm) (e : SingExpr) (v : ℚ) :
    SingExpr.eval (t :: e) v = t.eval v + SingExpr.eval e v := by
  simp [SingExpr.eval]

theorem eval_append (e1 e2 : SingExpr) (v : ℚ) :
    SingExpr.eval (e1 ++ e2) v = e1.eval v + e2.eval v := by
  simp [SingExpr.eval]

theorem eval_smul (c : ℚ) (e : SingExpr) (v : ℚ) :
    (smulSing c e).eval v = c * e.eval v := by
  induction e with
  | nil => simp [smulSing, SingExpr.eval]
  | cons t ts ih =>
      simp only [smulSing, List.map_cons] at ih ⊢
      rw [show (SingTerm.mk (c * t.coeff) t.shift t.order :: List.map
        (fun t => SingTerm.mk (c * t.coeff) t.shift t.order) ts : SingExpr)
        = (⟨c * t.coeff, t.shift, t.order⟩ : SingTerm) :: smulSing c ts from rfl]
      rw [eval_cons, eval_cons]
      rw [show SingExpr.eval (smulSing c ts) v
        = SingExpr.eval (List.map (fun t => SingTerm.mk (c * t.coeff) t.shift t.order) ts) v
        from rfl]
      rw [ih]
      have h : (SingTerm.mk (c * t.coeff) t.shift t.order).eval v = c * t.eval v := by
        simp only [SingTerm.eval]
        split_ifs <;> ring
      rw [h]
      ring

theorem eval_sumExprs (es : List SingExpr) (v : ℚ) :
    (sumExprs es).eval v = (es.map fun e => e.eval v).sum := by
  induction es with
  | nil => simp [sumExprs, SingExpr.eval]
  | cons e es ih =>
      have : sumExprs (e :: es) = e ++ sumExprs es := by simp [sumExprs]
      rw [this, eval_append, ih, List.map_cons, List.sum_cons]

/-! ## Per-load totals: the engine's integrated densities at the beam end
agree with the spec-side load components -/

theorem y1_eval_pointLoad (f c fx fy x1v : ℚ) (h : c ≤ x1v) :
    ((Load.pointLoad f c fx fy).y1).eval x1v = specLoadFy (.pointLoad f c fx fy) := by
  by_cases hfy : fy = 0
  · simp [Load.y1, Load.y0, Load.fyv, hfy, specLoadFy, integSing, SingExpr.eval]
  · simp only [Load.y1, Load.y0, Load.fyv, Load.expr, if_neg hfy, smulSing, integSing,
      List.map_cons, List.map_nil]
    norm_num [SingExpr.eval, SingTerm.eval, h, specLoadFy]
    ring

theorem y1_eval_udl (f a b2 fx fy x1v : ℚ) (h1 : a ≤ x1v) (h2 : b2 ≤ x1v) :
    ((Load.udl f a b2 fx fy).y1).eval x1v = specLoadFy (.udl f a b2 fx fy) := by
  by_cases hfy : fy = 0
  · simp [Load.y1, Load.y0, Load.fyv, hfy, specLoadFy, integSing, SingExpr.eval]
  · simp only [Load.y1, Load.y0, Load.fyv, Load.expr, if_neg hfy, smulSing, integSing,
      List.map_cons, List.map_nil]
    norm_num [SingExpr.eval, SingTerm.eval, h1, h2, specLoadFy]
    ring

theorem y1_eval_trapezoidal (f0 f1 a b2 fx fy x1v : ℚ) (h1 : a ≤ x1v) (h2 : b2 ≤ x1v)
    (hreg : f0 ≠ f1 → a ≠ b2) :
    ((Load.trapezoidal f0 f1 a b2 fx fy).y1).eval x1v
      = specLoadFy (.trapezoidal f0 f1 a b2 fx fy) := by
  by_cases hfy : fy = 0
  · simp [Load.y1, Load.y0, Load.fyv, hfy, specLoadFy, integSing, SingExpr.eval]
  · by_cases hf : f0 = f1
    · subst hf
      simp only [Load.y1, Load.y0, Load.fyv, Load.expr, if_neg hfy, ne_eq,
        not_true_eq_false, if_neg (by simp : ¬(f0 ≠ f0)), List.nil_append,
        smulSing, integSing, List.map_cons, List.map_nil]
      norm_num [SingExpr.eval, SingTerm.eval, h1, h2, specLoadFy]
      ring
    · have hab : b2 - a ≠ 0 := sub_ne_zero.mpr (Ne.symm (hreg hf))
      simp only [Load.y1, Load.y0, Load.fyv, Load.expr, if_neg hfy, ne_eq,
        if_pos hf, List.cons_append, List.nil_append,
        smulSing, integSing, List.map_cons, List.map_nil]
      norm_num [SingExpr.eval, SingTerm.eval, h1, h2, specLoadFy]
      simp only [show Int.toNat 2 = 2 from rfl]
      field_simp
      ring

theorem y1_eval_pointTorque (f c x1v : ℚ) :
    ((Load.pointTorque f c).y1).eval x1v = 0 := by
  norm_num [Load.y1, Load.y0, Load.fyv, Load.expr, smulSing, integSing,
    SingExpr.eval, SingTerm.eval]

theorem x1_eval_pointLoad (f c fx fy x1v : ℚ) (h : c ≤ x1v) :
    ((Load.pointLoad f c fx fy).x1).eval x1v = specLoadFx (.pointLoad f c fx fy) := by
  by_cases hfx : fx = 0
  · simp [Load.x1, Load.x0, Load.fxv, hfx, specLoadFx, integSing, SingExpr.eval]
  · simp only [Load.x1, Load.x0, Load.fxv, Load.expr, if_neg hfx, smulSing, integSing,
      List.map_cons, List.map_nil]
    norm_num [SingExpr.eval, SingTerm.eval, h, specLoadFx]
    ring

theorem x1_eval_udl (f a b2 fx fy x1v : ℚ) (h1 : a ≤ x1v) (h2 : b2 ≤ x1v) :
    ((Load.udl f a b2 fx fy).x1).eval x1v = specLoadFx (.udl f a b2 fx fy) := by
  by_cases hfx : fx = 0
  · simp [Load.x1, Load.x0, Load.fxv, hfx, specLoadFx, integSing, SingExpr.eval]
  · simp only [Load.x1, Load.x0, Load.fxv, Load.expr, if_neg hfx, smulSing, integSing,
      List.map_cons, List.map_nil]
    norm_num [SingExpr.eval, SingTerm.eval, h1, h2, specLoadFx]
    ring

theorem x1_eval_trapezoidal (f0 f1 a b2 fx fy x1v : ℚ) (h1 : a ≤ x1v) (h2 : b2 ≤ x1v)
    (hreg : f0 ≠ f1 → a ≠ b2) :
    ((Load.trapezoidal f0 f1 a b2 fx fy).x1).eval x1v
      = specLoadFx (.trapezoidal f0 f1 a b2 fx fy) := by
  by_cases hfx : fx = 0
  · simp [Load.x1, Load.x0, Load.fxv, hfx, specLoadFx, integSing, SingExpr.eval]
  · by_cases hf : f0 = f1
    · subst hf
      simp only [Load.x1, Load.x0, Load.fxv, Load.expr, if_neg hfx, ne_eq,
        not_true_eq_false, if_neg (by simp : ¬(f0 ≠ f0)), List.nil_append,
        smulSing, integSing, List.map_cons, List.map_nil]
      norm_num [SingExpr.eval, SingTerm.eval, h1, h2, specLoadFx]
      ring
    · have hab : b2 - a ≠ 0 := sub_ne_zero.mpr (Ne.symm (hreg hf))
      simp only [Load.x1, Load.x0, Load.fxv, Load.expr, if_neg hfx, ne_eq,
        if_pos hf, List.cons_append, List.nil_append,
        smulSing, integSing, List.map_cons, List.map_nil]
      norm_num [SingExpr.eval, SingTerm.eval, h1, h2, specLoadFx]
      simp only [show Int.toNat 2 = 2 from rfl]
      field_simp
      ring

theorem m0_spec (l : Load) (hreg : l.regular) : l.m0 = specLoadM0 l := by
  cases l with
  | pointLoad f c fx fy => simp [Load.m0, specLoadM0]; ring
  | pointTorque f c => rfl
  | udl f a b2 fx fy => simp [Load.m0, specLoadM0]; ring
  | trapezoidal f0 f1 a b2 fx fy =>
      by_cases hf : f0 = f1
      · subst hf
        simp [Load.m0, specLoadM0]
        ring
      · have hab : b2 - a ≠ 0 :=
          sub_ne_zero.mpr (Ne.symm (hreg.2 hf))
        simp only [Load.m0, specLoadM0]
        field_simp
        ring

/-! ## Sum decomposition over the load kinds -/

theorem sum_filter_eq (p : Load → Bool) (f : Load → ℚ) (ls : List Load) :
    ((ls.filter p).map f).sum = (ls.map fun l => if p l then f l else 0).sum := by
  induction ls with
  | nil => simp
  | cons l ls ih => by_cases hp : p l <;> simp [List.filter_cons, hp, ih]

theorem two_sum_eq (w1 w2 : ℚ) (f g : Load → ℚ) (ls : List Load)
    (h : ∀ l ∈ ls,
      (if l.isPointLoad then f l * w1 else if l.isDistKind then f l * w2 else 0) = g l) :
    ((ls.filter fun l => l.isPointLoad).map f).sum * w1
      + ((ls.filter fun l => l.isDistKind).map f).sum * w2
      = (ls.map g).sum := by
  induction ls with
  | nil => simp
  | cons l ls ih =>
      have hl := h l (List.mem_cons_self l ls)
      have ihh := ih fun a ha => h a (List.mem_cons_of_mem l ha)
      cases l with
      | pointLoad f' c fx fy =>
          simp [List.filter_cons, Load.isPointLoad, Load.isDistKind,
            Load.isPointTorque] at hl ihh ⊢
          ring_nf at hl ihh ⊢
          linarith [ihh, hl]
      | pointTorque f' c =>
          simp [List.filter_cons, Load.isPointLoad, Load.isDistKind,
            Load.isPointTorque] at hl ihh ⊢
          ring_nf at hl ihh ⊢
          linarith [ihh, hl]
      | udl f' a bb fx fy =>
          simp [List.filter_cons, Load.isPointLoad, Load.isDistKind,
            Load.isPointTorque] at hl ihh ⊢
          ring_nf at hl ihh ⊢
          linarith [ihh, hl]
      | trapezoidal f0 f1 a bb fx fy =>
          simp [List.filter_cons, Load.isPointLoad, Load.isDistKind,
            Load.isPointTorque] at hl ihh ⊢
          ring_nf at hl ihh ⊢
          linarith [ihh, hl]

theorem three_sum_eq (w1 w2 w3 : ℚ) (f g : Load → ℚ) (ls : List Load)
    (h : ∀ l ∈ ls,
      (if l.isPointLoad then f l * w1
       else if l.isDistKind then f l * w2
       else f l * w3) = g l) :
    ((ls.filter fun l => l.isPointLoad).map f).sum * w1
      + ((ls.filter fun l => l.isDistKind).map f).sum * w2
      + ((ls.filter fun l => l.isPointTorque).map f).sum * w3
      = (ls.map g).sum := by
  induction ls with
  | nil => simp
  | cons l ls ih =>
      have hl := h l (List.mem_cons_self l ls)
      have ihh := ih fun a ha => h a (List.mem_cons_of_mem l ha)
      cases l with
      | pointLoad f' c fx fy =>
          simp [List.filter_cons, Load.isPointLoad, Load.isDistKind,
            Load.isPointTorque] at hl ihh ⊢
          ring_nf at hl ihh ⊢
          linarith [ihh, hl]
      | pointTorque f' c =>
          simp [List.filter_cons, Load.isPointLoad, Load.isDistKind,
            Load.isPointTorque] at hl ihh ⊢
          ring_nf at hl ihh ⊢
          linarith [ihh, hl]
      | udl f' a bb fx fy =>
          simp [List.filter_cons, Load.isPointLoad, Load.isDistKind,
            Load.isPointTorque] at hl ihh ⊢
          ring_nf at hl ihh ⊢
          linarith [ihh, hl]
      | trapezoidal f0 f1 a bb fx fy =>
          simp [List.filter_cons, Load.isPointLoad, Load.isDistKind,
            Load.isPointTorque] at hl ihh ⊢
          ring_nf at hl ihh ⊢
          linarith [ihh, hl]

/-! ## The external equilibrium equations in spec terms -/

theorem F_Ry_spec (b : Beam) (u : UnitFactors) (σ : Assignment)
    (hok : ∀ l ∈ b.loads, loadSpanCheck b l = none ∧ l.regular) :
    F_Ry b u σ
      = (b.loads.map (specLoadFySI u)).sum
        + ((unknownsY b).map fun s => σ.ry s.position).sum := by
  have key : ∀ l ∈ b.loads,
      (if l.isPointLoad then ((l.y1).eval b.x1) * u.force
       else if l.isDistKind then ((l.y1).eval b.x1) * (u.distributed * u.length)
       else 0) = specLoadFySI u l := by
    intro l hm
    obtain ⟨hspan, hreg⟩ := hok l hm
    cases l with
    | pointLoad f c fx fy =>
        simp only [loadSpanCheck] at hspan
        rw [ite_eq_right_iff] at hspan
        have hb : ¬(b.x0 > c ∨ c > b.x1) := fun hcon => by simpa using hspan hcon
        push_neg at hb
        show ((Load.pointLoad f c fx fy).y1).eval b.x1 * u.force = _
        rw [y1_eval_pointLoad f c fx fy b.x1 hb.2]
        simp [specLoadFySI]
    | pointTorque f c =>
        simp [Load.isPointLoad, Load.isDistKind, specLoadFySI]
    | udl f a bb fx fy =>
        simp only [loadSpanCheck] at hspan
        rw [ite_eq_right_iff] at hspan
        have hb : ¬(b.x0 > a ∨ bb > b.x1) := fun hcon => by simpa using hspan hcon
        push_neg at hb
        have ha1 : a ≤ b.x1 := le_trans hreg hb.2
        show ((Load.udl f a bb fx fy).y1).eval b.x1 * (u.distributed * u.length) = _
        rw [y1_eval_udl f a bb fx fy b.x1 ha1 hb.2]
        simp [specLoadFySI]
    | trapezoidal f0 f1 a bb fx fy =>
        simp only [loadSpanCheck] at hspan
        rw [ite_eq_right_iff] at hspan
        have hb : ¬(b.x0 > a ∨ bb > b.x1) := fun hcon => by simpa using hspan hcon
        push_neg at hb
        have ha1 : a ≤ b.x1 := le_trans hreg.1 hb.2
        show ((Load.trapezoidal f0 f1 a bb fx fy).y1).eval b.x1
          * (u.distributed * u.length) = _
        rw [y1_eval_trapezoidal f0 f1 a bb fx fy b.x1 ha1 hb.2 hreg.2]
        simp [specLoadFySI]
  have h2 := two_sum_eq u.force (u.distributed * u.length)
    (fun l => (l.y1).eval b.x1) (specLoadFySI u) b.loads key
  unfold F_Ry ptLoads distLoads
  ring_nf at h2 ⊢
  linarith [h2]

theorem F_Rx_spec (b : Beam) (u : UnitFactors) (σ : Assignment)
    (hok : ∀ l ∈ b.loads, loadSpanCheck b l = none ∧ l.regular) :
    F_Rx b u σ
      = (b.loads.map (specLoadFxSI u)).sum
        + ((unknownsX b).map fun s => σ.rx s.position).sum := by
  have key : ∀ l ∈ b.loads,
      (if l.isPointLoad then ((l.x1).eval b.x1) * u.force
       else if l.isDistKind then ((l.x1).eval b.x1) * (u.distributed * u.length)
       else 0) = specLoadFxSI u l := by
    intro l hm
    obtain ⟨hspan, hreg⟩ := hok l hm
    cases l with
    | pointLoad f c fx fy =>
        simp only [loadSpanCheck] at hspan
        rw [ite_eq_right_iff] at hspan
        have hb : ¬(b.x0 > c ∨ c > b.x1) := fun hcon => by simpa using hspan hcon
        push_neg at hb
        show ((Load.pointLoad f c fx fy).x1).eval b.x1 * u.force = _
        rw [x1_eval_pointLoad f c fx fy b.x1 hb.2]
        simp [specLoadFxSI]
    | pointTorque f c =>
        simp [Load.isPointLoad, Load.isDistKind, specLoadFxSI]
    | udl f a bb fx fy =>
        simp only [loadSpanCheck] at hspan
        rw [ite_eq_right_iff] at hspan
        have hb : ¬(b.x0 > a ∨ bb > b.x1) := fun hcon => by simpa using hspan hcon
        push_neg at hb
        have ha1 : a ≤ b.x1 := le_trans hreg hb.2
        show ((Load.udl f a bb fx fy).x1).eval b.x1 * (u.distributed * u.length) = _
        rw [x1_eval_udl f a bb fx fy b.x1 ha1 hb.2]
        simp [specLoadFxSI]
    | trapezoidal f0 f1 a bb fx fy =>
        simp only [loadSpanCheck] at hspan
        rw [ite_eq_right_iff] at hspan
        have hb : ¬(b.x0 > a ∨ bb > b.x1) := fun hcon => by simpa using hspan hcon
        push_neg at hb
        have ha1 : a ≤ b.x1 := le_trans hreg.1 hb.2
        show ((Load.trapezoidal f0 f1 a bb fx fy).x1).eval b.x1
          * (u.distributed * u.length) = _
        rw [x1_eval_trapezoidal f0 f1 a bb fx fy b.x1 ha1 hb.2 hreg.2]
        simp [specLoadFxSI]
  have h2 := two_sum_eq u.force (u.distributed * u.length)
    (fun l => (l.x1).eval b.x1) (specLoadFxSI u) b.loads key
  unfold F_Rx ptLoads distLoads
  ring_nf at h2 ⊢
  linarith [h2]

theorem M_R_spec (b : Beam) (u : UnitFactors) (σ : Assignment)
    (hok : ∀ l ∈ b.loads, loadSpanCheck b l = none ∧ l.regular) :
    M_R b u σ
      = (b.loads.map (specLoadM0SI u)).sum
        + ((unknownsY b).map fun s => σ.ry s.position * s.position).sum * u.length
        + ((unknownsM b).map fun s => σ.rm s.position).sum := by
  have key : ∀ l ∈ b.loads,
      (if l.isPointLoad then l.m0 * (u.force * u.length)
       else if l.isDistKind then l.m0 * (u.distributed * u.length ^ 2)
       else l.m0 * u.moment) = specLoadM0SI u l := by
    intro l hm
    obtain ⟨hspan, hreg⟩ := hok l hm
    have hm0 := m0_spec l hreg
    cases l with
    | pointLoad f c fx fy =>
        show (Load.pointLoad f c fx fy).m0 * (u.force * u.length) = _
        rw [hm0]; rfl
    | pointTorque f c =>
        show (Load.pointTorque f c).m0 * u.moment = _
        rw [hm0]; rfl
    | udl f a bb fx fy =>
        show (Load.udl f a bb fx fy).m0 * (u.distributed * u.length ^ 2) = _
        rw [hm0]; rfl
    | trapezoidal f0 f1 a bb fx fy =>
        show (Load.trapezoidal f0 f1 a bb fx fy).m0 * (u.distributed * u.length ^ 2) = _
        rw [hm0]; rfl
  have h3 := three_sum_eq (u.force * u.length) (u.distributed * u.length ^ 2) u.moment
    Load.m0 (specLoadM0SI u) b.loads key
  unfold M_R ptLoads distLoads torqueLoads
  ring_nf at h3 ⊢
  linarith [h3]

/-- C1: for every beam on which `analyse()` succeeds, the solved reactions
satisfy global equilibrium: the y components of all applied loads plus all
solved y-reactions sum to zero; the x components plus all solved
x-reactions sum to zero; and the moments of all loads and y-reactions
about the origin, plus all point torques and solved moment reactions, sum
to zero (exactly, in the engine's exact arithmetic). -/
theorem analyse_equilibrium (b : Beam) (σ : Assignment)
    (hok : ∀ l ∈ b.loads, loadSpanCheck b l = none ∧ l.regular)
    (h : AnalyseSucceeds b σ) :
    (b.loads.map (specLoadFySI (factorsOf b.units))).sum
        + ((unknownsY b).map fun s => σ.ry s.position).sum = 0
    ∧ (b.loads.map (specLoadFxSI (factorsOf b.units))).sum
        + ((unknownsX b).map fun s => σ.rx s.position).sum = 0
    ∧ (b.loads.map (specLoadM0SI (factorsOf b.units))).sum
        + ((unknownsY b).map fun s => σ.ry s.position * s.position).sum
            * (factorsOf b.units).length
        + ((unknownsM b).map fun s => σ.rm s.position).sum = 0 := by
  obtain ⟨hchk, hym, hxx⟩ := h
  have h1 : F_Ry b (factorsOf b.units) σ = 0 := by
    apply hym
    unfold equations_ym
    simp
  have h2 : M_R b (factorsOf b.units) σ = 0 := by
    apply hym
    unfold equations_ym
    simp
  have h3 : F_Rx b (factorsOf b.units) σ = 0 := by
    apply hxx
    unfold equations_xx
    simp
  refine ⟨?_, ?_, ?_⟩
  · rw [← F_Ry_spec b (factorsOf b.units) σ hok]
    exact h1
  · rw [← F_Rx_spec b (factorsOf b.units) σ hok]
    exact h3
  · rw [← M_R_spec b (factorsOf b.units) σ hok]
    exact h2

/-! ## Concrete evaluations -/

theorem factorsOf_default : factorsOf defaultUnitsSel = ⟨1, 1, 1, 1, 1, 1, 1, 1, 1⟩ := rfl

theorem beamW_units : beamW.units = defaultUnitsSel := rfl

theorem sortSupports_beamW :
    sortSupports beamW.supports
      = [⟨0, .inf, .inf, .fin 0⟩, ⟨2, .fin 0, .inf, .fin 0⟩] := by
  norm_num [sortSupports, insertSupport, beamW, Beam.new]

theorem unknowns_beamW :
    unknownsX beamW = [⟨0, .inf, .inf, .fin 0⟩]
    ∧ unknownsY beamW = [⟨0, .inf, .inf, .fin 0⟩, ⟨2, .fin 0, .inf, .fin 0⟩]
    ∧ unknownsM beamW = [] := by
  refine ⟨?_, ?_, ?_⟩ <;>
    simp [unknownsX, unknownsY, unknownsM, sortSupports_beamW, List.filter_cons]

theorem check_beamW : analyseCheckSupports beamW = .ok () := by
  have h := unknowns_beamW
  simp [analyseCheckSupports, h.1, h.2.1, h.2.2]

theorem beamW_loads : beamW.loads = [.pointLoad (-2) 1 0 1] := rfl

theorem beamW_x1 : beamW.x1 = 2 := rfl

theorem beamW_E : beamW.E = 200 * 10 ^ 9 := rfl

theorem beamW_I : beamW.I = 905 / 10 ^ 8 := rfl

theorem beamW_A : beamW.A = 23 / 100 := rfl

theorem equations_ym_beamW :
    equations_ym beamW (factorsOf beamW.units) assignW = [0, 0, 0, 0] := by
  rw [show factorsOf beamW.units = ⟨1, 1, 1, 1, 1, 1, 1, 1, 1⟩ from rfl]
  norm_num [equations_ym, F_Ry, M_R, dv_at, v_at, dv_loadpart, v_loadpart,
    M_i_loadpart, F_i_loadpart, torqueY1, yMexpr, yDvExpr, yVexpr, mMexpr,
    mDvExpr, mVexpr, sfStep, ptLoads, distLoads, torqueLoads,
    unknowns_beamW.1, unknowns_beamW.2.1, unknowns_beamW.2.2,
    beamW_loads, beamW_x1, beamW_E, beamW_I,
    assignW, Load.y1, Load.y0, Load.fyv, Load.expr, Load.m0,
    Load.isPointLoad, Load.isDistKind, Load.isPointTorque,
    smulSing, integSing, sumExprs, SingExpr.eval, SingTerm.eval, stiffInv,
    List.filter_cons, show Int.toNat 0 = 0 from rfl, show Int.toNat 1 = 1 from rfl,
    show Int.toNat 2 = 2 from rfl, show Int.toNat 3 = 3 from rfl,
    show Int.toNat 4 = 4 from rfl]

theorem equations_xx_beamW :
    equations_xx beamW (factorsOf beamW.units) assignW = [0] := by
  rw [show factorsOf beamW.units = ⟨1, 1, 1, 1, 1, 1, 1, 1, 1⟩ from rfl]
  norm_num [equations_xx, F_Rx, ptLoads, distLoads,
    unknowns_beamW.1, beamW_loads, beamW_x1, assignW,
    Load.x1, Load.x0, Load.fxv, Load.expr,
    Load.isPointLoad, Load.isDistKind, Load.isPointTorque,
    smulSing, integSing, sumExprs, SingExpr.eval, SingTerm.eval,
    List.filter_cons]

theorem analyse_beamW : AnalyseSucceeds beamW assignW := by
  refine ⟨check_beamW, ?_, ?_⟩
  · intro q hq
    rw [equations_ym_beamW] at hq
    simpa using hq
  · intro q hq
    rw [equations_xx_beamW] at hq
    simpa using hq

theorem loadsOK_beamW : ∀ l ∈ beamW.loads, loadSpanCheck beamW l = none ∧ l.regular := by
  intro l hm
  rw [beamW_loads] at hm
  simp at hm
  subst hm
  refine ⟨?_, trivial⟩
  norm_num [loadSpanCheck, beamW_x1, show beamW.x0 = 0 from rfl]

/-- Witness for C1: the simply supported check beam with its solved
reactions satisfies all three equilibrium sums. -/
theorem analyse_equilibrium_witness :
    (beamW.loads.map (specLoadFySI (factorsOf beamW.units))).sum
        + ((unknownsY beamW).map fun s => assignW.ry s.position).sum = 0
    ∧ (beamW.loads.map (specLoadFxSI (factorsOf beamW.units))).sum
        + ((unknownsX beamW).map fun s => assignW.rx s.position).sum = 0
    ∧ (beamW.loads.map (specLoadM0SI (factorsOf beamW.units))).sum
        + ((unknownsY beamW).map fun s => assignW.ry s.position * s.position).sum
            * (factorsOf beamW.units).length
        + ((unknownsM beamW).map fun s => assignW.rm s.position).sum = 0 :=
  analyse_equilibrium beamW assignW loadsOK_beamW analyse_beamW

/-- C3: `analyse` raises its configuration error — before any equation is
formed — exactly when the supports provide no x-reaction unknown or fewer
than two combined y/m-reaction unknowns; with at least one x unknown and
two y/m unknowns the check passes. -/
theorem analyse_restraint_check (b : Beam) :
    (analyseCheckSupports b = .ok ()
      ↔ 1 ≤ (unknownsX b).length ∧ 2 ≤ (unknownsY b).length + (unknownsM b).length)
    ∧ ((unknownsX b).length < 1 →
        analyseCheckSupports b
          = .error "You need at least one x restraint, even if there are no x forces")
    ∧ (1 ≤ (unknownsX b).length →
        (unknownsY b).length + (unknownsM b).length < 2 →
        analyseCheckSupports b
          = .error "You need at least two y or m restraints, even if there are no y or m forces") := by
  refine ⟨⟨?_, ?_⟩, ?_, ?_⟩
  · intro h
    unfold analyseCheckSupports at h
    split_ifs at h with h1 h2
    constructor <;> omega
  · intro hc
    unfold analyseCheckSupports
    rw [if_neg (by omega), if_neg (by omega)]
  · intro h1
    unfold analyseCheckSupports
    rw [if_pos h1]
  · intro h1 h2
    unfold analyseCheckSupports
    rw [if_neg (by omega), if_pos h2]

/-- C7: a `TrapezoidalLoad` whose two force values coincide produces the
same load-density expression, the same axial and tangential densities and
integrated (normal-force and shear-force) contributions, and the same
moment about the origin as the `UDL` of that force over the same span and
angle. -/
theorem trapezoidal_constant_is_udl (f a bb fx fy : ℚ) :
    (Load.trapezoidal f f a bb fx fy).expr = (Load.udl f a bb fx fy).expr
    ∧ (Load.trapezoidal f f a bb fx fy).x0 = (Load.udl f a bb fx fy).x0
    ∧ (Load.trapezoidal f f a bb fx fy).y0 = (Load.udl f a bb fx fy).y0
    ∧ (Load.trapezoidal f f a bb fx fy).x1 = (Load.udl f a bb fx fy).x1
    ∧ (Load.trapezoidal f f a bb fx fy).y1 = (Load.udl f a bb fx fy).y1
    ∧ (Load.trapezoidal f f a bb fx fy).m0 = (Load.udl f a bb fx fy).m0 := by
  have he : (Load.trapezoidal f f a bb fx fy).expr = (Load.udl f a bb fx fy).expr := by
    simp [Load.expr]
  refine ⟨he, ?_, ?_, ?_, ?_, ?_⟩
  · simp [Load.x0, Load.fxv, he]
  · simp [Load.y0, Load.fyv, he]
  · simp [Load.x1, Load.x0, Load.fxv, he]
  · simp [Load.y1, Load.y0, Load.fyv, he]
  · simp [Load.m0]

/-- C9: `add_query_points` never raises: it appends every in-range
coordinate until the first out-of-range one, at which point it stops and
hands back the `ValueError` object as its return value (`none` when every
coordinate is on the beam). -/
theorem add_query_points_spec (b : Beam) (coords : List ℚ) :
    add_query_points b coords
      = ({ b with query := b.query ++ coords.takeWhile fun c => decide (b.x0 ≤ c ∧ c ≤ b.x1) },
         if coords.all (fun c => decide (b.x0 ≤ c ∧ c ≤ b.x1)) then none
         else some "Not a point on beam") := by
  unfold add_query_points
  induction coords generalizing b with
  | nil => simp [add_query_points_go]
  | cons c cs ih =>
      have hstep : add_query_points_go b (c :: cs)
          = if b.x0 ≤ c ∧ c ≤ b.x1 then
              add_query_points_go { b with query := b.query ++ [c] } cs
            else (b, some "Not a point on beam") := rfl
      by_cases hc : b.x0 ≤ c ∧ c ≤ b.x1
      · rw [hstep, if_pos hc, ih]
        simp [List.takeWhile_cons, List.all_cons, hc]
      · rw [hstep, if_neg hc]
        simp [List.takeWhile_cons, List.all_cons, hc]

/-- C10: `Support.__init__` treats `kx = 0` or `ky = 0` as absent (Python
truthiness): the stiffness of that axis stays as the `fixed` tuple
dictates (infinite if fixed, zero if free); only a truthy (nonzero)
override replaces it, and a negative override fails validation. -/
theorem support_init_zero_override (coord : ℚ) (fixed : ℚ × ℚ × ℚ)
    (h0 : 0 ≤ coord)
    (hf1 : fixed.1 = 0 ∨ fixed.1 = 1) (hf2 : fixed.2.1 = 0 ∨ fixed.2.1 = 1)
    (hf3 : fixed.2.2 = 0 ∨ fixed.2.2 = 1) :
    (∀ ky, Support_init coord fixed (some 0) ky = Support_init coord fixed none ky)
    ∧ (∀ kx, Support_init coord fixed kx (some 0) = Support_init coord fixed kx none)
    ∧ Support_init coord fixed none none
        = .ok ⟨coord, if fixed.1 ≠ 0 then .inf else .fin 0,
            if fixed.2.1 ≠ 0 then .inf else .fin 0,
            if fixed.2.2 ≠ 0 then .inf else .fin 0⟩
    ∧ (∀ k, 0 < k → Support_init coord fixed (some k) none
        = .ok ⟨coord, .fin k, if fixed.2.1 ≠ 0 then .inf else .fin 0,
            if fixed.2.2 ≠ 0 then .inf else .fin 0⟩)
    ∧ (∀ k, 0 < k → Support_init coord fixed none (some k)
        = .ok ⟨coord, if fixed.1 ≠ 0 then .inf else .fin 0, .fin k,
            if fixed.2.2 ≠ 0 then .inf else .fin 0⟩)
    ∧ (∀ k ky, k < 0 → Support_init coord fixed (some k) ky
        = .error "kx should be >= 0")
    ∧ (∀ k, k < 0 → Support_init coord fixed none (some k)
        = .error "ky should be >= 0") := by
  have hn : ¬coord < 0 := not_lt.mpr h0
  have hPr : (fixed.1 = 0 ∨ fixed.1 = 1) ∧ (fixed.2.1 = 0 ∨ fixed.2.1 = 1)
      ∧ (fixed.2.2 = 0 ∨ fixed.2.2 = 1) := ⟨hf1, hf2, hf3⟩
  refine ⟨?_, ?_, ?_, ?_, ?_, ?_, ?_⟩
  · intro ky
    simp [Support_init, truthy]
  · intro kx
    simp [Support_init, truthy]
  · simp [Support_init, truthy, assert_positive_number, hn, assert_list_contents, hPr]
    rfl
  · intro k hk
    have hkne : k ≠ 0 := ne_of_gt hk
    have hknn : ¬k < 0 := not_lt.mpr (le_of_lt hk)
    simp [Support_init, truthy, hkne, assert_positive_number, hn, hknn,
      assert_list_contents, hPr]
    rfl
  · intro k hk
    have hkne : k ≠ 0 := ne_of_gt hk
    have hknn : ¬k < 0 := not_lt.mpr (le_of_lt hk)
    simp [Support_init, truthy, hkne, assert_positive_number, hn, hknn,
      assert_list_contents, hPr]
    rfl
  · intro k ky hk
    have hkne : k ≠ 0 := ne_of_lt hk
    simp [Support_init, truthy, hkne, assert_positive_number, hn, hk]
    rfl
  · intro k hk
    have hkne : k ≠ 0 := ne_of_lt hk
    simp [Support_init, truthy, hkne, assert_positive_number, hn, hk]
    rfl

/-- Witness for C10 at `coord = 1`, `fixed = (1,1,0)`. -/
theorem support_init_zero_override_witness :
    Support_init 1 (1, 1, 0) (some 0) (some 5) = Support_init 1 (1, 1, 0) none (some 5)
    ∧ Support_init 1 (1, 1, 0) (some 5) (some 0) = Support_init 1 (1, 1, 0) (some 5) none
    ∧ Support_init 1 (1, 1, 0) none none
        = .ok ⟨1, if (1 : ℚ) ≠ 0 then .inf else .fin 0,
            if (1 : ℚ) ≠ 0 then .inf else .fin 0,
            if (0 : ℚ) ≠ 0 then .inf else .fin 0⟩
    ∧ Support_init 1 (1, 1, 0) (some 5) none
        = .ok ⟨1, .fin 5, if (1 : ℚ) ≠ 0 then .inf else .fin 0,
            if (0 : ℚ) ≠ 0 then .inf else .fin 0⟩
    ∧ Support_init 1 (1, 1, 0) none (some 5)
        = .ok ⟨1, if (1 : ℚ) ≠ 0 then .inf else .fin 0, .fin 5,
            if (0 : ℚ) ≠ 0 then .inf else .fin 0⟩
    ∧ Support_init 1 (1, 1, 0) (some (-3)) none = .error "kx should be >= 0"
    ∧ Support_init 1 (1, 1, 0) none (some (-3)) = .error "ky should be >= 0" := by
  obtain ⟨h1, h2, h3, h4, h5, h6, h7⟩ :=
    support_init_zero_override 1 (1, 1, 0) (by norm_num) (by norm_num) (by norm_num)
      (by norm_num)
  exact ⟨h1 (some 5), h2 (some 5), h3, h4 5 (by norm_num), h5 5 (by norm_num),
    h6 (-3) none (by norm_num), h7 (-3) (by norm_num)⟩

/-- C4 (amended): on a beam whose analysis cache is cleared, the four
internal-force/deflection queries raise (`KeyError` from the empty
plotting-vector dict), while `get_reaction` does not raise — it prints a
console warning and returns `None`. -/
theorem queries_before_analyse (b : Beam)
    (hpv : b.plottingVectors = none) (hre : b.reactions = []) :
    (∀ xs rmax rmin rabs, get_normal_force b xs rmax rmin rabs = .error "KeyError")
    ∧ (∀ xs rmax rmin rabs, get_shear_force b xs rmax rmin rabs = .error "KeyError")
    ∧ (∀ xs rmax rmin rabs, get_bending_moment b xs rmax rmin rabs = .error "KeyError")
    ∧ (∀ xs rmax rmin rabs, get_deflection b xs rmax rmin rabs = .error "KeyError")
    ∧ (∀ p dir, get_reaction b p dir = .ok none) := by
  refine ⟨?_, ?_, ?_, ?_, ?_⟩ <;> intros <;>
    simp [get_normal_force, get_shear_force, get_bending_moment, get_deflection,
      get_query_value, hpv, get_reaction, lookupReaction, hre]

/-- Counterexample for C4 as stated: on a freshly constructed beam,
`get_reaction` does not produce an error — it returns `None`. -/
theorem get_reaction_unanalysed_not_error :
    get_reaction (Beam.new 5 (200 * 10 ^ 9) (905 / 10 ^ 8) (23 / 100)) 0 none
      = .ok none := by
  simp [get_reaction, lookupReaction, Beam.new]

/-- Witness for C4 (amended) on a freshly constructed beam. -/
theorem queries_before_analyse_witness :
    get_shear_force (Beam.new 5 (200 * 10 ^ 9) (905 / 10 ^ 8) (23 / 100)) [1]
        false false false = .error "KeyError"
    ∧ get_reaction (Beam.new 5 (200 * 10 ^ 9) (905 / 10 ^ 8) (23 / 100)) 5 (some "y")
        = .ok none := by
  obtain ⟨-, h2, -, -, h5⟩ :=
    queries_before_analyse (Beam.new 5 (200 * 10 ^ 9) (905 / 10 ^ 8) (23 / 100)) rfl rfl
  exact ⟨h2 [1] false false false, h5 5 (some "y")⟩

theorem add_loads_go_rejects (l : Load) (ls : List Load) :
    ∀ b : Beam, l ∈ ls → loadSpanCheck b l ≠ none → l ∉ b.loads →
    (add_loads_go b ls).2 ≠ none ∧ l ∉ (add_loads_go b ls).1.loads := by
  induction ls with
  | nil => intro b hmem _ _; exact absurd hmem (List.not_mem_nil l)
  | cons c cs ih =>
      intro b hmem hbad hnot
      have hstep : add_loads_go b (c :: cs)
          = (match loadSpanCheck b c with
             | some e => (b, some e)
             | none => add_loads_go
                 (if loadForceValue c ≠ 0 then { b with loads := b.loads ++ [c] } else b)
                 cs) := rfl
      cases hcheck : loadSpanCheck b c with
      | some e =>
          rw [hstep, hcheck]
          exact ⟨by simp, hnot⟩
      | none =>
          rw [hstep, hcheck]
          have hne : c ≠ l := fun he => hbad (he ▸ hcheck)
          have hmem' : l ∈ cs := by
            rcases List.mem_cons.mp hmem with h | h
            · exact absurd h.symm hne
            · exact h
          by_cases hf : loadForceValue c ≠ 0
          · rw [if_pos hf]
            refine ih _ hmem' hbad ?_
            intro hcon
            rcases List.mem_append.mp hcon with h | h
            · exact hnot h
            · simp at h
              exact hne h.symm
          · rw [if_neg hf]
            exact ih _ hmem' hbad hnot

theorem add_supports_go_rejects (s : Support) (ss : List Support) :
    ∀ b : Beam, s ∈ ss →
    ((b.x0 > s.position ∨ s.position > b.x1)
      ∨ s.position ∈ b.supports.map Support.position) →
    s ∉ b.supports →
    (add_supports_go b ss).2 ≠ none ∧ s ∉ (add_supports_go b ss).1.supports := by
  induction ss with
  | nil => intro b hmem _ _; exact absurd hmem (List.not_mem_nil s)
  | cons c cs ih =>
      intro b hmem hbad hnot
      have hstep : add_supports_go b (c :: cs)
          = if b.x0 > c.position ∨ c.position > b.x1 then (b, some "Not a point on beam")
            else if b.supports = [] then
              add_supports_go { b with supports := b.supports ++ [c] } cs
            else if c.position ∉ b.supports.map Support.position then
              add_supports_go { b with supports := b.supports ++ [c] } cs
            else (b, some "This coordinate already has a support associated with it") := rfl
      by_cases hr : b.x0 > c.position ∨ c.position > b.x1
      · rw [hstep, if_pos hr]
        exact ⟨by simp, hnot⟩
      · rw [hstep, if_neg hr]
        by_cases hcs : c = s
        · subst hcs
          rcases hbad with hout | hcol
          · exact absurd hout hr
          · have hne : b.supports ≠ [] := by
              intro he
              rw [he] at hcol
              simp at hcol
            rw [if_neg hne, if_neg (by simpa using hcol)]
            exact ⟨by simp, hnot⟩
        · have htrans : (b.x0 > s.position ∨ s.position > b.x1)
              ∨ s.position ∈ ((b.supports ++ [c]).map Support.position) := by
            rcases hbad with h | h
            · exact Or.inl h
            · exact Or.inr (by simp [List.mem_append]; exact Or.inl (by simpa using h))
          have hnot' : s ∉ b.supports ++ [c] := by
            intro hcon
            rcases List.mem_append.mp hcon with h | h
            · exact hnot h
            · simp at h
              exact hcs h.symm
          have hmem' : s ∈ cs := by
            rcases List.mem_cons.mp hmem with h | h
            · exact absurd h.symm hcs
            · exact h
          by_cases he : b.supports = []
          · rw [if_pos he]
            exact ih _ hmem' htrans hnot'
          · rw [if_neg he]
            by_cases hp : c.position ∉ b.supports.map Support.position
            · rw [if_pos hp]
              exact ih _ hmem' htrans hnot'
            · rw [if_neg hp]
              exact ⟨by simp, hnot⟩

/-- C5: `add_loads` raises for a load whose application point or span lies
outside the beam, and `add_supports` raises for a support off the beam or
at an already-supported position; the offending object is never appended
to the beam's list. -/
theorem insertion_place_errors :
    (∀ (b : Beam) (ls : List Load) (l : Load), l ∈ ls → loadSpanCheck b l ≠ none →
      l ∉ b.loads → (add_loads b ls).2 ≠ none ∧ l ∉ (add_loads b ls).1.loads)
    ∧ (∀ (b : Beam) (ss : List Support) (s : Support), s ∈ ss →
      ((b.x0 > s.position ∨ s.position > b.x1)
        ∨ s.position ∈ b.supports.map Support.position) →
      s ∉ b.supports →
      (add_supports b ss).2 ≠ none ∧ s ∉ (add_supports b ss).1.supports) := by
  constructor
  · intro b ls l hmem hbad hnot
    exact add_loads_go_rejects l ls (analysisReset b) hmem hbad hnot
  · intro b ss s hmem hbad hnot
    exact add_supports_go_rejects s ss (analysisReset b) hmem hbad hnot

/-- Witness for C5: a point load at 10 and a support at 7 are both
rejected by a span-5 beam and not appended. -/
theorem insertion_place_errors_witness :
    ((add_loads (Beam.new 5 1 1 1) [.pointLoad 1 10 0 1]).2 ≠ none
      ∧ Load.pointLoad 1 10 0 1 ∉ (add_loads (Beam.new 5 1 1 1) [.pointLoad 1 10 0 1]).1.loads)
    ∧ ((add_supports (Beam.new 5 1 1 1) [⟨7, .inf, .inf, .inf⟩]).2 ≠ none
      ∧ (⟨7, .inf, .inf, .inf⟩ : Support)
          ∉ (add_supports (Beam.new 5 1 1 1) [⟨7, .inf, .inf, .inf⟩]).1.supports) := by
  obtain ⟨h1, h2⟩ := insertion_place_errors
  refine ⟨h1 _ _ _ (by simp) ?_ (by simp [Beam.new]), h2 _ _ _ (by simp) ?_ (by simp [Beam.new])⟩
  · norm_num [loadSpanCheck, Beam.new]
    simp
  · left
    right
    show (7 : ℚ) > (Beam.new 5 1 1 1).x1
    norm_num [Beam.new]

theorem clearedAnalysis_reset (b : Beam) : clearedAnalysis (analysisReset b) := by
  simp [clearedAnalysis, analysisReset]

theorem add_loads_go_preserves_cleared (ls : List Load) :
    ∀ b : Beam, clearedAnalysis b → clearedAnalysis (add_loads_go b ls).1 := by
  induction ls with
  | nil => intro b h; exact h
  | cons c cs ih =>
      intro b h
      have hstep : add_loads_go b (c :: cs)
          = (match loadSpanCheck b c with
             | some e => (b, some e)
             | none => add_loads_go
                 (if loadForceValue c ≠ 0 then { b with loads := b.loads ++ [c] } else b)
                 cs) := rfl
      cases hcheck : loadSpanCheck b c with
      | some e => rw [hstep, hcheck]; exact h
      | none =>
          rw [hstep, hcheck]
          by_cases hf : loadForceValue c ≠ 0
          · rw [if_pos hf]
            exact ih _ h
          · rw [if_neg hf]
            exact ih _ h

theorem add_supports_go_preserves_cleared (ss : List Support) :
    ∀ b : Beam, clearedAnalysis b → clearedAnalysis (add_supports_go b ss).1 := by
  induction ss with
  | nil => intro b h; exact h
  | cons c cs ih =>
      intro b h
      have hstep : add_supports_go b (c :: cs)
          = if b.x0 > c.position ∨ c.position > b.x1 then (b, some "Not a point on beam")
            else if b.supports = [] then
              add_supports_go { b with supports := b.supports ++ [c] } cs
            else if c.position ∉ b.supports.map Support.position then
              add_supports_go { b with supports := b.supports ++ [c] } cs
            else (b, some "This coordinate already has a support associated with it") := rfl
      rw [hstep]
      split_ifs <;> first | exact h | exact ih _ h

/-- C8 (amended): `add_loads`, `remove_loads`, `add_supports` and
`remove_supports` always clear the analysis cache (they reset before
doing anything else, even on a call that raises); `update_units` clears
it on every call that passes validation — including `reset=True` — while
a call failing key/unit validation raises without touching the state. -/
theorem mutators_clear_analysis :
    (∀ (b : Beam) (ls : List Load), clearedAnalysis (add_loads b ls).1)
    ∧ (∀ (b : Beam) (ls : List Load) (ra : Bool), clearedAnalysis (remove_loads b ls ra))
    ∧ (∀ (b : Beam) (ss : List Support), clearedAnalysis (add_supports b ss).1)
    ∧ (∀ (b : Beam) (ss : List Support) (ra : Bool),
        clearedAnalysis (remove_supports b ss ra))
    ∧ (∀ (b : Beam) (key unit : String) (reset : Bool),
        (update_units b key unit reset).2 = none →
        clearedAnalysis (update_units b key unit reset).1) := by
  refine ⟨?_, ?_, ?_, ?_, ?_⟩
  · intro b ls
    exact add_loads_go_preserves_cleared ls _ (clearedAnalysis_reset b)
  · intro b ls ra
    unfold remove_loads
    split_ifs <;> exact clearedAnalysis_reset b
  · intro b ss
    exact add_supports_go_preserves_cleared ss _ (clearedAnalysis_reset b)
  · intro b ss ra
    unfold remove_supports
    split_ifs <;> exact clearedAnalysis_reset b
  · intro b key unit reset h
    by_cases hres : reset
    · simp only [update_units, if_pos hres]
      exact clearedAnalysis_reset _
    · simp only [update_units, if_neg hres] at h ⊢
      cases hk : assert_contents key UNIT_KEYS "key" with
      | error e => simp [hk] at h
      | ok u1 =>
          cases hu : assert_contents unit (UNIT_VALUES key) "unit" with
          | error e => simp [hk, hu] at h
          | ok u2 =>
              simp only [hk, hu]
              exact clearedAnalysis_reset _

/-- Counterexample for C8 as stated: an `update_units` call that fails key
validation raises and leaves a populated analysis cache untouched. -/
theorem update_units_invalid_keeps_cache :
    (update_units (applyAnalysis beamW assignW) "foo" "m" false).1
        = applyAnalysis beamW assignW
    ∧ (update_units (applyAnalysis beamW assignW) "foo" "m" false).2 ≠ none
    ∧ (applyAnalysis beamW assignW).reactions ≠ [] := by
  refine ⟨?_, ?_, ?_⟩
  · simp [update_units, assert_contents, UNIT_KEYS]
  · simp [update_units, assert_contents, UNIT_KEYS]
  · simp [applyAnalysis, reactionsOf, sortSupports_beamW]

/-- Witness for C8 (amended): every mutator clears the cache of an
analysed beam; a valid `update_units` call clears it too. -/
theorem mutators_clear_analysis_witness :
    clearedAnalysis (add_loads (applyAnalysis beamW assignW) []).1
    ∧ clearedAnalysis (remove_loads (applyAnalysis beamW assignW) [] false)
    ∧ clearedAnalysis (add_supports (applyAnalysis beamW assignW) []).1
    ∧ clearedAnalysis (remove_supports (applyAnalysis beamW assignW) [] false)
    ∧ clearedAnalysis
        (update_units (applyAnalysis beamW assignW) "length" "mm" false).1 := by
  obtain ⟨h1, h2, h3, h4, h5⟩ := mutators_clear_analysis
  exact ⟨h1 _ _, h2 _ _ _, h3 _ _, h4 _ _ _,
    h5 _ "length" "mm" false
      (by simp [update_units, assert_contents, UNIT_KEYS, UNIT_VALUES])⟩

/-- C6 evidence: a `UDL` (and a constant `TrapezoidalLoad`) whose span end
equals its span start is accepted by the constructor — the
strictly-positive validator only rejects negative values, contradicting
its own "should be > 0" message — while an end strictly left of the start
is rejected. -/
theorem udl_degenerate_span_accepted :
    UDL_init 10 (2, 2) 0 1 = .ok (.udl 10 2 2 0 1)
    ∧ TrapezoidalLoad_init (5, 5) (2, 2) 0 1 = .ok (.trapezoidal 5 5 2 2 0 1)
    ∧ UDL_init 10 (3, 2) 0 1 = .error "span start minus span end should be > 0" := by
  have hr0 : roundTo 5 ((0 : ℚ)) = 0 := by
    norm_num [roundTo, pyRound]
  refine ⟨?_, ?_, ?_⟩
  · norm_num [UDL_init, assert_positive_number, assert_strictly_positive_number, hr0]
    rfl
  · norm_num [TrapezoidalLoad_init, assert_positive_number,
      assert_strictly_positive_number, hr0]
    rfl
  · have hr : roundTo 5 ((-1 : ℚ)) = -1 := by
      norm_num [roundTo, pyRound]
    norm_num [UDL_init, assert_positive_number, assert_strictly_positive_number, hr]
    rfl

/-! ## The documentation example, solved -/

theorem beamC2_loads : beamC2.loads = [loadC2] := rfl

theorem beamC2_x1 : beamC2.x1 = 6 := rfl

theorem beamC2_units : factorsOf beamC2.units = ⟨1, 1, 1, 1, 1, 1, 1, 1, 1⟩ := rfl

theorem sortSupports_beamC2 : sortSupports beamC2.supports = [supportA, supportC] := by
  norm_num [sortSupports, insertSupport, beamC2, Beam.new, supportA, supportC]

theorem unknowns_beamC2 :
    unknownsX beamC2 = [supportA]
    ∧ unknownsY beamC2 = [supportA, supportC]
    ∧ unknownsM beamC2 = [supportA] := by
  refine ⟨?_, ?_, ?_⟩ <;>
    simp [unknownsX, unknownsY, unknownsM, sortSupports_beamC2, List.filter_cons,
      supportA, supportC]

theorem check_beamC2 : analyseCheckSupports beamC2 = .ok () := by
  simp [analyseCheckSupports, unknowns_beamC2.1, unknowns_beamC2.2.1, unknowns_beamC2.2.2]

theorem equations_ym_beamC2 (σ : Assignment) :
    equations_ym beamC2 (factorsOf beamC2.units) σ
      = [F_Ry beamC2 (factorsOf beamC2.units) σ,
         M_R beamC2 (factorsOf beamC2.units) σ,
         dv_at beamC2 (factorsOf beamC2.units) σ 0,
         v_at beamC2 (factorsOf beamC2.units) σ 0
             / (beamC2.E * (factorsOf beamC2.units).E * beamC2.I * (factorsOf beamC2.units).I)
           + σ.ry 0 * stiffInv Stiffness.inf (factorsOf beamC2.units).stiffness,
         v_at beamC2 (factorsOf beamC2.units) σ 6
             / (beamC2.E * (factorsOf beamC2.units).E * beamC2.I * (factorsOf beamC2.units).I)
           + σ.ry 6 * stiffInv Stiffness.inf (factorsOf beamC2.units).stiffness] := by
  unfold equations_ym
  rw [unknowns_beamC2.2.1, unknowns_beamC2.2.2]
  rfl

theorem equations_xx_beamC2 (σ : Assignment) :
    equations_xx beamC2 (factorsOf beamC2.units) σ
      = [F_Rx beamC2 (factorsOf beamC2.units) σ] := by
  unfold equations_xx
  rw [unknowns_beamC2.1]
  norm_num

theorem F_Ry_beamC2 (σ : Assignment) :
    F_Ry beamC2 (factorsOf beamC2.units) σ = -15000 + (σ.ry 0 + σ.ry 6) := by
  rw [beamC2_units]
  norm_num [F_Ry, ptLoads, distLoads, beamC2_loads, beamC2_x1, loadC2,
    unknowns_beamC2.2.1, supportA, supportC,
    Load.y1, Load.y0, Load.fyv, Load.expr, Load.isPointLoad, Load.isDistKind,
    smulSing, integSing, SingExpr.eval, SingTerm.eval, List.filter_cons,
    show Int.toNat 0 = 0 from rfl]

theorem M_R_beamC2 (σ : Assignment) :
    M_R beamC2 (factorsOf beamC2.units) σ
      = -45000 + (σ.rm 0 + 6 * σ.ry 6) := by
  rw [beamC2_units]
  norm_num [M_R, ptLoads, distLoads, torqueLoads, beamC2_loads, loadC2,
    unknowns_beamC2.2.1, unknowns_beamC2.2.2, supportA, supportC,
    Load.m0, Load.isPointLoad, Load.isDistKind, Load.isPointTorque, List.filter_cons]
  ring

theorem dv_beamC2 (σ : Assignment) :
    dv_at beamC2 (factorsOf beamC2.units) σ 0 = σ.c1 := by
  rw [beamC2_units]
  norm_num [dv_at, dv_loadpart, M_i_loadpart, F_i_loadpart, torqueY1,
    yMexpr, yDvExpr, mMexpr, mDvExpr, sfStep,
    ptLoads, distLoads, torqueLoads, beamC2_loads, loadC2,
    unknowns_beamC2.2.1, unknowns_beamC2.2.2, supportA, supportC,
    Load.y1, Load.y0, Load.fyv, Load.expr, Load.isPointLoad, Load.isDistKind,
    Load.isPointTorque, smulSing, integSing, sumExprs,
    SingExpr.eval, SingTerm.eval, List.filter_cons,
    show Int.toNat 0 = 0 from rfl, show Int.toNat 1 = 1 from rfl,
    show Int.toNat 2 = 2 from rfl]

theorem v0_beamC2 (σ : Assignment) :
    v_at beamC2 (factorsOf beamC2.units) σ 0 = σ.c2 := by
  rw [beamC2_units]
  norm_num [v_at, v_loadpart, dv_loadpart, M_i_loadpart, F_i_loadpart, torqueY1,
    yMexpr, yDvExpr, yVexpr, mMexpr, mDvExpr, mVexpr, sfStep,
    ptLoads, distLoads, torqueLoads, beamC2_loads, loadC2,
    unknowns_beamC2.2.1, unknowns_beamC2.2.2, supportA, supportC,
    Load.y1, Load.y0, Load.fyv, Load.expr, Load.isPointLoad, Load.isDistKind,
    Load.isPointTorque, smulSing, integSing, sumExprs,
    SingExpr.eval, SingTerm.eval, List.filter_cons,
    show Int.toNat 0 = 0 from rfl, show Int.toNat 1 = 1 from rfl,
    show Int.toNat 2 = 2 from rfl, show Int.toNat 3 = 3 from rfl]

theorem v6_beamC2 (σ : Assignment) :
    v_at beamC2 (factorsOf beamC2.units) σ 6
      = -67500 + 36 * σ.ry 0 - 18 * σ.rm 0 + 6 * σ.c1 + σ.c2 := by
  rw [beamC2_units]
  norm_num [v_at, v_loadpart, dv_loadpart, M_i_loadpart, F_i_loadpart, torqueY1,
    yMexpr, yDvExpr, yVexpr, mMexpr, mDvExpr, mVexpr, sfStep,
    ptLoads, distLoads, torqueLoads, beamC2_loads, loadC2,
    unknowns_beamC2.2.1, unknowns_beamC2.2.2, supportA, supportC,
    Load.y1, Load.y0, Load.fyv, Load.expr, Load.isPointLoad, Load.isDistKind,
    Load.isPointTorque, smulSing, integSing, sumExprs,
    SingExpr.eval, SingTerm.eval, List.filter_cons,
    show Int.toNat 0 = 0 from rfl, show Int.toNat 1 = 1 from rfl,
    show Int.toNat 2 = 2 from rfl, show Int.toNat 3 = 3 from rfl]
  ring

theorem F_Rx_beamC2 (σ : Assignment) :
    F_Rx beamC2 (factorsOf beamC2.units) σ = σ.rx 0 := by
  rw [beamC2_units]
  norm_num [F_Rx, ptLoads, distLoads, beamC2_loads, beamC2_x1, loadC2,
    unknowns_beamC2.1, supportA,
    Load.x1, Load.x0, Load.fxv, Load.expr, Load.isPointLoad, Load.isDistKind,
    smulSing, integSing, SingExpr.eval, SingTerm.eval, List.filter_cons]

theorem beamC2_solution (σ : Assignment) (h : AnalyseSucceeds beamC2 σ) :
    σ.ry 0 = 10312.5 ∧ σ.ry 6 = 4687.5 ∧ σ.rm 0 = 16875
    ∧ σ.rx 0 = 0 ∧ σ.c1 = 0 ∧ σ.c2 = 0 := by
  obtain ⟨-, hym, hxx⟩ := h
  rw [equations_ym_beamC2] at hym
  rw [equations_xx_beamC2] at hxx
  have e1 := hym _ (List.mem_cons_self _ _)
  have e2 := hym _ (List.mem_cons_of_mem _ (List.mem_cons_self _ _))
  have e3 := hym _ (List.mem_cons_of_mem _ (List.mem_cons_of_mem _
    (List.mem_cons_self _ _)))
  have e4 := hym _ (List.mem_cons_of_mem _ (List.mem_cons_of_mem _
    (List.mem_cons_of_mem _ (List.mem_cons_self _ _))))
  have e5 := hym _ (List.mem_cons_of_mem _ (List.mem_cons_of_mem _
    (List.mem_cons_of_mem _ (List.mem_cons_of_mem _ (List.mem_cons_self _ _)))))
  have e6 := hxx _ (List.mem_cons_self _ _)
  rw [F_Ry_beamC2] at e1
  rw [M_R_beamC2] at e2
  rw [dv_beamC2] at e3
  rw [F_Rx_beamC2] at e6
  rw [v0_beamC2, beamC2_units] at e4
  simp only [stiffInv] at e4
  norm_num [show beamC2.E = 200 * 10 ^ 9 from rfl, show beamC2.I = 905 / 10 ^ 8 from rfl,
    div_eq_zero_iff] at e4
  rw [v6_beamC2, beamC2_units] at e5
  simp only [stiffInv] at e5
  norm_num [show beamC2.E = 200 * 10 ^ 9 from rfl, show beamC2.I = 905 / 10 ^ 8 from rfl,
    div_eq_zero_iff] at e5
  refine ⟨?_, ?_, ?_, ?_, ?_, ?_⟩ <;> linarith [e1, e2, e3, e4, e5, e6]

theorem analyse_beamC2 : AnalyseSucceeds beamC2 assignC2 := by
  refine ⟨check_beamC2, ?_, ?_⟩
  · intro q hq
    rw [equations_ym_beamC2] at hq
    have h1 : F_Ry beamC2 (factorsOf beamC2.units) assignC2 = 0 := by
      rw [F_Ry_beamC2]
      norm_num [assignC2]
    have h2 : M_R beamC2 (factorsOf beamC2.units) assignC2 = 0 := by
      rw [M_R_beamC2]
      norm_num [assignC2]
    have h3 : dv_at beamC2 (factorsOf beamC2.units) assignC2 0 = 0 := by
      rw [dv_beamC2]
      norm_num [assignC2]
    have h4 : v_at beamC2 (factorsOf beamC2.units) assignC2 0
        / (beamC2.E * (factorsOf beamC2.units).E * beamC2.I * (factorsOf beamC2.units).I)
        + assignC2.ry 0 * stiffInv Stiffness.inf (factorsOf beamC2.units).stiffness
        = 0 := by
      rw [v0_beamC2]
      norm_num [assignC2, stiffInv]
    have h5 : v_at beamC2 (factorsOf beamC2.units) assignC2 6
        / (beamC2.E * (factorsOf beamC2.units).E * beamC2.I * (factorsOf beamC2.units).I)
        + assignC2.ry 6 * stiffInv Stiffness.inf (factorsOf beamC2.units).stiffness
        = 0 := by
      rw [v6_beamC2]
      norm_num [assignC2, stiffInv]
    simp only [List.mem_cons, List.not_mem_nil, or_false] at hq
    rcases hq with rfl | rfl | rfl | rfl | rfl
    exacts [h1, h2, h3, h4, h5]
  · intro q hq
    rw [equations_xx_beamC2] at hq
    simp only [List.mem_cons, List.not_mem_nil, or_false] at hq
    subst hq
    rw [F_Rx_beamC2]
    norm_num [assignC2]

theorem pyRound_intCast (n : ℤ) : pyRound (n : ℚ) = n := by
  unfold pyRound
  norm_num [Int.floor_intCast]

theorem roundTo_self (d : ℕ) (q : ℚ) (n : ℤ) (h : q * 10 ^ d = (n : ℚ)) :
    roundTo d q = q := by
  unfold roundTo
  rw [h, pyRound_intCast, ← h]
  have hne : (10 : ℚ) ^ d ≠ 0 := by positivity
  field_simp

theorem reactions_beamC2 (σ : Assignment)
    (h1 : σ.ry 0 = 10312.5) (h2 : σ.ry 6 = 4687.5) (h3 : σ.rm 0 = 16875)
    (h4 : σ.rx 0 = 0) :
    reactionsOf beamC2 (factorsOf beamC2.units) σ
      = [(0, 0, 10312.5, 16875), (6, 0, 4687.5, 0)] := by
  have r1 : roundTo 10 ((20625 : ℚ) / 2) = 20625 / 2 :=
    roundTo_self 10 _ 103125000000000 (by norm_num)
  have r2 : roundTo 10 ((9375 : ℚ) / 2) = 9375 / 2 :=
    roundTo_self 10 _ 46875000000000 (by norm_num)
  have r3 : roundTo 10 (16875 : ℚ) = 16875 :=
    roundTo_self 10 _ 168750000000000 (by norm_num)
  have r0 : roundTo 10 (0 : ℚ) = 0 := roundTo_self 10 _ 0 (by norm_num)
  have hS : (Stiffness.inf : Stiffness) ≠ Stiffness.fin 0 := nofun
  rw [beamC2_units]
  norm_num [reactionsOf, reactionTriple, sortSupports_beamC2, supportA, supportC,
    h1, h2, h3, h4, hS, r1, r2, r3, r0]

theorem bm_formula_beamC2 (σ : Assignment)
    (h1 : σ.ry 0 = 10312.5) (h2 : σ.ry 6 = 4687.5) (h3 : σ.rm 0 = 16875) :
    ∀ v : ℚ, (bmExprOf beamC2 (factorsOf beamC2.units) σ).eval v
      = (if (3 : ℚ) ≤ v then -15000 * (v - 3) else 0)
        + (if (0 : ℚ) ≤ v then 10312.5 * v else 0)
        + (if (6 : ℚ) ≤ v then 4687.5 * (v - 6) else 0)
        + (if (0 : ℚ) ≤ v then -16875 else 0) := by
  intro v
  rw [beamC2_units]
  norm_num [bmExprOf, M_i_loadpart, F_i_loadpart, torqueY1, yMexpr, mMexpr, sfStep,
    ptLoads, distLoads, torqueLoads, beamC2_loads, loadC2,
    unknowns_beamC2.2.1, unknowns_beamC2.2.2, supportA, supportC,
    Load.y1, Load.y0, Load.fyv, Load.expr, Load.isPointLoad, Load.isDistKind,
    Load.isPointTorque, smulSing, integSing, sumExprs, SingExpr.eval, SingTerm.eval,
    List.filter_cons, h1, h2, h3,
    show Int.toNat 0 = 0 from rfl, show Int.toNat 1 = 1 from rfl]
  split_ifs <;> ring

theorem shear_beamC2 (σ : Assignment)
    (h1 : σ.ry 0 = 10312.5) (h2 : σ.ry 6 = 4687.5) :
    (shearExprOf beamC2 (factorsOf beamC2.units) σ).eval (3 - 1/10000000) = 10312.5
    ∧ (shearExprOf beamC2 (factorsOf beamC2.units) σ).eval (3 + 1/10000000)
        = -4687.5 := by
  constructor <;>
  · rw [beamC2_units]
    norm_num [shearExprOf, F_i_loadpart, sfStep,
      ptLoads, distLoads, beamC2_loads, loadC2,
      unknowns_beamC2.2.1, supportA, supportC,
      Load.y1, Load.y0, Load.fyv, Load.expr, Load.isPointLoad, Load.isDistKind,
      smulSing, integSing, sumExprs, SingExpr.eval, SingTerm.eval,
      List.filter_cons, h1, h2, show Int.toNat 0 = 0 from rfl]

/-- C2 (amended): for the span-6 beam with a fixed support at 0, a y-only
support at 6 and the downward 15000 point load at 3, any solution of the
analysis system yields reactions (0, 10312.5, 16875) at x = 0 and
(0, 4687.5, 0) at x = 6; the shear function is 10312.5 just left of 3 and
-4687.5 just right; the bending moment at 0 is -16875; and the peak
bending moment 14062.5 is attained at x = 3 (the right endpoint of
(0, 3)), bounding the function on all of [0, 6]. -/
theorem beamC2_analysis_results (σ : Assignment) (h : AnalyseSucceeds beamC2 σ) :
    reactionsOf beamC2 (factorsOf beamC2.units) σ
        = [(0, 0, 10312.5, 16875), (6, 0, 4687.5, 0)]
    ∧ (shearExprOf beamC2 (factorsOf beamC2.units) σ).eval (3 - 1/10000000) = 10312.5
    ∧ (shearExprOf beamC2 (factorsOf beamC2.units) σ).eval (3 + 1/10000000) = -4687.5
    ∧ (bmExprOf beamC2 (factorsOf beamC2.units) σ).eval 0 = -16875
    ∧ (bmExprOf beamC2 (factorsOf beamC2.units) σ).eval 3 = 14062.5
    ∧ ∀ v : ℚ, 0 ≤ v → v ≤ 6 →
        (bmExprOf beamC2 (factorsOf beamC2.units) σ).eval v ≤ 14062.5 := by
  obtain ⟨h1, h2, h3, h4, -, -⟩ := beamC2_solution σ h
  have hbm := bm_formula_beamC2 σ h1 h2 h3
  have hsh := shear_beamC2 σ h1 h2
  refine ⟨reactions_beamC2 σ h1 h2 h3 h4, hsh.1, hsh.2, ?_, ?_, ?_⟩
  · rw [hbm 0]
    norm_num
  · rw [hbm 3]
    norm_num
  · intro v h0 h6
    rw [hbm v]
    rcases le_or_lt 6 v with hv6 | hv6
    · have hveq : v = 6 := le_antisymm h6 hv6
      subst hveq
      norm_num
    · rw [if_neg (not_le.mpr hv6), if_pos h0, if_pos h0]
      rcases le_or_lt 3 v with hv3 | hv3
      · rw [if_pos hv3]
        linarith
      · rw [if_neg (not_le.mpr hv3)]
        linarith

/-- Counterexample for C2 as stated: the example beam's solved moment
reaction at 0 is 16875 and its peak bending moment 14062.5 — not the
claimed 16875000 and 14062500, which are off by a factor of 1000 and
beyond any floating tolerance. -/
theorem beamC2_claimed_moments_wrong :
    AnalyseSucceeds beamC2 assignC2
    ∧ reactionsOf beamC2 (factorsOf beamC2.units) assignC2
        = [(0, 0, 10312.5, 16875), (6, 0, 4687.5, 0)]
    ∧ ¬|(16875 : ℚ) - 16875000| ≤ 1000
    ∧ ¬|(14062.5 : ℚ) - 14062500| ≤ 1000 := by
  refine ⟨analyse_beamC2,
    reactions_beamC2 assignC2 (by norm_num [assignC2]) (by norm_num [assignC2])
      (by norm_num [assignC2]) (by norm_num [assignC2]), ?_, ?_⟩
  · rw [abs_sub_comm]
    norm_num [abs_of_nonneg]
  · rw [abs_sub_comm]
    norm_num [abs_of_nonneg]

/-- Witness for C2 (amended) at the actual `linsolve` solution. -/
theorem beamC2_analysis_results_witness :
    reactionsOf beamC2 (factorsOf beamC2.units) assignC2
        = [(0, 0, 10312.5, 16875), (6, 0, 4687.5, 0)]
    ∧ (shearExprOf beamC2 (factorsOf beamC2.units) assignC2).eval (3 - 1/10000000)
        = 10312.5
    ∧ (shearExprOf beamC2 (factorsOf beamC2.units) assignC2).eval (3 + 1/10000000)
        = -4687.5
    ∧ (bmExprOf beamC2 (factorsOf beamC2.units) assignC2).eval 0 = -16875
    ∧ (bmExprOf beamC2 (factorsOf beamC2.units) assignC2).eval 3 = 14062.5
    ∧ (bmExprOf beamC2 (factorsOf beamC2.units) assignC2).eval (3/2) ≤ 14062.5 := by
  obtain ⟨ha, hb, hc, hd, he, hf⟩ := beamC2_analysis_results assignC2 analyse_beamC2
  exact ⟨ha, hb, hc, hd, he, hf (3/2) (by norm_num) (by norm_num)⟩

/-- Witness for C3: a beam with no supports fails the restraint check with
the x-restraint message, and the documentation example passes it. -/
theorem analyse_restraint_check_witness :
    analyseCheckSupports (Beam.new 5 1 1 1)
      = .error "You need at least one x restraint, even if there are no x forces"
    ∧ analyseCheckSupports beamC2 = .ok () := by
  constructor
  · exact (analyse_restraint_check (Beam.new 5 1 1 1)).2.1
      (by simp [unknownsX, sortSupports, Beam.new])
  · exact (analyse_restraint_check beamC2).1.mpr
      (by rw [unknowns_beamC2.1, unknowns_beamC2.2.1, unknowns_beamC2.2.2]; simp)
